import Mathlib

/-!
Verification of the driving-coach telemetry core.

Shallow embedding of the pipeline components of `ai_driving_coach`:
the lap/sector tracker (`tracking/lap_tracker.py`), the session timing
analyzer (`analysis/session_timing.py`), the corner feature extractor
(`features/extractor.py`), the realtime coach (`coaching/realtime_coach.py`)
and the benchmark repository's fuzzy slug matching and upsert merge
(`benchmarks/repository.py`).

Python floats are modelled as `ℚ`, `Optional[T]` as `Option T`, Python
dicts as insertion-ordered association lists (or total functions with an
empty default where only lookup semantics matter).  Stateful classes
become explicit state records with step functions returning the new state
together with the list of events published on the bus during the step.
-/

namespace DrivingCoach

/-- The fields of `TelemetryTick` (models/telemetry.py) that are read by the
lap tracker and the corner feature extractor.  The remaining optional
environmental fields are forwarded, never interpreted, by the components
verified here, so they are omitted from the embedding. -/
structure TelemetryTick where
  session_time_s : ℚ
  lap_count : ℕ
  lap_time_s : ℚ
  normalized_spline_pos : ℚ
  speed_kmh : ℚ
  throttle : ℚ
  brake : ℚ
  steer : ℚ
  sector : Option ℤ := none
  track_name : Option String := none
  track_length_m : Option ℚ := none
deriving DecidableEq

/-! ## Lap/Sector Tracker (tracking/lap_tracker.py) -/

/-- Python's two-argument `max` on floats, written out so that it reduces
by kernel computation on `ℚ`. -/
def pyMax (a b : ℚ) : ℚ := if b ≤ a then a else b


/-- `LapTrackerState` (lap_tracker.py lines 11-15). -/
structure LapTrackerState where
  current_lap : Option ℕ := none
  current_sector : Option ℤ := none
  lap_start_session_time : Option ℚ := none
deriving DecidableEq

/-- Events published by `LapTracker.process_tick`, with their payloads. -/
inductive TrackerEvent
  | lap_started (lap_number : ℕ) (session_time_s : ℚ) (sector : Option ℤ)
  | lap_finished (lap_number : ℕ) (lap_time_s : ℚ) (session_time_s : ℚ)
  | sector_changed (lap_number : ℕ) (from_sector to_sector : Option ℤ)
      (session_time_s : ℚ)
deriving DecidableEq

/-- Python truthiness of the optional `tick.sector` field: `None` and `0`
are falsy, every other integer is truthy. -/
def sectorTruthy : Option ℤ → Bool
  | none => false
  | some n => n != 0

/-- `LapTracker.process_tick` (lap_tracker.py lines 25-87): returns the new
tracker state and the events published on the bus, in publish order. -/
def LapTracker.processTick (st : LapTrackerState) (t : TelemetryTick) :
    LapTrackerState × List TrackerEvent :=
  match st.current_lap with
  | none =>
      ({ current_lap := some t.lap_count
         current_sector := t.sector
         lap_start_session_time := some t.session_time_s },
       [TrackerEvent.lap_started t.lap_count t.session_time_s t.sector])
  | some cur =>
      if t.lap_count ≠ cur then
        let lap_duration :=
          match st.lap_start_session_time with
          | some s => t.session_time_s - s
          | none => t.lap_time_s
        ({ current_lap := some t.lap_count
           current_sector := t.sector
           lap_start_session_time := some t.session_time_s },
         [TrackerEvent.lap_finished cur (pyMax 0 lap_duration) t.session_time_s,
          TrackerEvent.lap_started t.lap_count t.session_time_s t.sector])
      else if sectorTruthy t.sector = true ∧ t.sector ≠ st.current_sector then
        ({ st with current_sector := t.sector },
         [TrackerEvent.sector_changed t.lap_count st.current_sector t.sector
            t.session_time_s])
      else (st, [])

/-- The freshly constructed tracker: `LapTracker.__init__`. -/
def initLapTrackerState : LapTrackerState := {}

/-- Feed a list of ticks through the tracker, accumulating published events
in order. -/
def runTracker (st : LapTrackerState) (ticks : List TelemetryTick) :
    LapTrackerState × List TrackerEvent :=
  ticks.foldl
    (fun p t =>
      let r := LapTracker.processTick p.1 t
      (r.1, p.2 ++ r.2))
    (st, [])

/-! ## Session Timing Analyzer (analysis/session_timing.py) -/

/-- Insertion-ordered dictionary lookup (Python `dict.get` / `in`). -/
def dictGet (d : List (ℕ × ℚ)) (k : ℕ) : Option ℚ :=
  match d with
  | [] => none
  | p :: rest => if p.1 = k then some p.2 else dictGet rest k

/-- Insertion-ordered dictionary assignment (Python `d[k] = v`): replaces
the value in place if the key is present, appends otherwise. -/
def dictSet (d : List (ℕ × ℚ)) (k : ℕ) (v : ℚ) : List (ℕ × ℚ) :=
  match d with
  | [] => [(k, v)]
  | p :: rest => if p.1 = k then (k, v) :: rest else p :: dictSet rest k v

/-- `LapTimingData` (session_timing.py lines 7-15). -/
structure LapTimingData where
  lap_number : ℕ
  lap_time_s : ℚ
  sectors : List (ℕ × ℚ)
  is_best_lap : Bool
  delta_to_best_lap_s : ℚ
  theoretical_best_s : Option ℚ
  sector_deltas_to_best : List (ℕ × ℚ)
deriving DecidableEq

/-- The mutable state of `SessionTimingAnalyzer` (lines 21-32). -/
structure SessionTimingAnalyzer where
  current_lap_number : Option ℕ := none
  current_lap_start_s : Option ℚ := none
  current_sector : Option ℕ := none
  current_sector_start_s : Option ℚ := none
  current_sector_times : List (ℕ × ℚ) := []
  best_lap_time_s : Option ℚ := none
  best_lap_number : Option ℕ := none
  best_sector_times : List (ℕ × ℚ) := []
  last_lap_timing : Option LapTimingData := none
deriving DecidableEq

/-- `SessionTimingAnalyzer.__init__`. -/
def initSessionTimingAnalyzer : SessionTimingAnalyzer := {}

/-- `SessionTimingAnalyzer._update_best_sector` (lines 111-114). -/
def updateBestSector (d : List (ℕ × ℚ)) (sector : ℕ) (sector_time : ℚ) :
    List (ℕ × ℚ) :=
  match dictGet d sector with
  | none => dictSet d sector sector_time
  | some current_best =>
      if sector_time < current_best then dictSet d sector sector_time else d

/-- `SessionTimingAnalyzer.on_lap_started` (lines 34-39). -/
def SessionTimingAnalyzer.on_lap_started (a : SessionTimingAnalyzer)
    (lap_number : ℕ) (session_time_s : ℚ) (sector : ℕ) :
    SessionTimingAnalyzer :=
  { a with
    current_lap_number := some lap_number
    current_lap_start_s := some session_time_s
    current_sector := some (max 1 (min 3 sector))
    current_sector_start_s := some session_time_s
    current_sector_times := [] }

/-- `SessionTimingAnalyzer.on_sector_changed` (lines 41-56). -/
def SessionTimingAnalyzer.on_sector_changed (a : SessionTimingAnalyzer)
    (from_sector to_sector : Option ℕ) (session_time_s : ℚ) :
    SessionTimingAnalyzer :=
  match from_sector with
  | none =>
      { a with
        current_sector := to_sector
        current_sector_start_s := some session_time_s }
  | some fs =>
      match a.current_sector_start_s with
      | none =>
          { a with
            current_sector_start_s := some session_time_s
            current_sector := to_sector }
      | some css =>
          let sector_time := pyMax 0 (session_time_s - css)
          { a with
            current_sector_times := dictSet a.current_sector_times fs sector_time
            best_sector_times := updateBestSector a.best_sector_times fs sector_time
            current_sector := to_sector
            current_sector_start_s := some session_time_s }

/-- `SessionTimingAnalyzer.on_lap_finished` (lines 58-93): returns the
updated analyzer state and the `LapTimingData` produced for the lap. -/
def SessionTimingAnalyzer.on_lap_finished (a : SessionTimingAnalyzer)
    (lap_number : ℕ) (lap_time_s session_time_s : ℚ) :
    SessionTimingAnalyzer × LapTimingData :=
  -- Close open sector (typically sector 3) at lap finish.
  let closing :=
    match a.current_sector, a.current_sector_start_s with
    | some cs, some css =>
        if (dictGet a.current_sector_times cs).isNone then
          let sector_time := pyMax 0 (session_time_s - css)
          (dictSet a.current_sector_times cs sector_time,
           updateBestSector a.best_sector_times cs sector_time)
        else (a.current_sector_times, a.best_sector_times)
    | _, _ => (a.current_sector_times, a.best_sector_times)
  let sectors := closing.1
  let best_sectors := closing.2
  let is_best_lap : Bool :=
    match a.best_lap_time_s with
    | none => true
    | some b => lap_time_s < b
  let best_lap_time_s :=
    if is_best_lap then some lap_time_s else a.best_lap_time_s
  let best_lap_number :=
    if is_best_lap then some lap_number else a.best_lap_number
  let delta_to_best :=
    match best_lap_time_s with
    | none => 0
    | some b => lap_time_s - b
  let theoretical_best :=
    match dictGet best_sectors 1, dictGet best_sectors 2, dictGet best_sectors 3 with
    | some b1, some b2, some b3 => some (b1 + b2 + b3)
    | _, _, _ => none
  let sector_deltas_to_best :=
    ([1, 2, 3] : List ℕ).filterMap
      (fun s =>
        match dictGet sectors s, dictGet best_sectors s with
        | some v, some b => some (s, v - b)
        | _, _ => none)
  let timing : LapTimingData :=
    { lap_number := lap_number
      lap_time_s := lap_time_s
      sectors := sectors
      is_best_lap := is_best_lap
      delta_to_best_lap_s := delta_to_best
      theoretical_best_s := theoretical_best
      sector_deltas_to_best := sector_deltas_to_best }
  ({ a with
     best_lap_time_s := best_lap_time_s
     best_lap_number := best_lap_number
     best_sector_times := best_sectors
     last_lap_timing := some timing },
   timing)

/-- Apply a list of `on_lap_finished` calls, each given as
`(lap_number, lap_time_s, session_time_s)`, keeping only the state. -/
def runLapFinishes (a : SessionTimingAnalyzer) (calls : List (ℕ × ℚ × ℚ)) :
    SessionTimingAnalyzer :=
  calls.foldl (fun a c => (a.on_lap_finished c.1 c.2.1 c.2.2).1) a

/-! ## Theorems: Lap/Sector Tracker -/

/-- Tick used in the lap-count example: only the lap count and session time
vary, the sector is constantly 1. -/
def c5Tick (lap : ℕ) (time : ℚ) : TelemetryTick :=
  { session_time_s := time
    lap_count := lap
    lap_time_s := 0
    normalized_spline_pos := 0
    speed_kmh := 0
    throttle := 0
    brake := 0
    steer := 0
    sector := some 1 }

/-- C5: for a tick sequence with lap counts [1,1,1,2,2,3], the tracker
publishes exactly lap_started(1), lap_finished(1), lap_started(2),
lap_finished(2), lap_started(3), in that order; and the first tick ever
publishes exactly one lap_started and never a lap_finished. -/
theorem lapTracker_lap_count_sequence :
    (runTracker initLapTrackerState
        [c5Tick 1 0, c5Tick 1 10, c5Tick 1 20, c5Tick 2 30, c5Tick 2 40,
         c5Tick 3 50]).2 =
      [TrackerEvent.lap_started 1 0 (some 1),
       TrackerEvent.lap_finished 1 30 30,
       TrackerEvent.lap_started 2 30 (some 1),
       TrackerEvent.lap_finished 2 20 50,
       TrackerEvent.lap_started 3 50 (some 1)] ∧
    ∀ t : TelemetryTick,
      (LapTracker.processTick initLapTrackerState t).2 =
        [TrackerEvent.lap_started t.lap_count t.session_time_s t.sector] :=
  ⟨by norm_num [runTracker, LapTracker.processTick, initLapTrackerState,
      c5Tick, pyMax, sectorTruthy], fun _ => rfl⟩

/-- C10: once the tracker is initialized, a tick whose sector is absent
(`None` or `0`) and whose lap count equals the current lap publishes no
event and leaves the state unchanged. -/
theorem lapTracker_falsy_sector_no_event (st : LapTrackerState)
    (t : TelemetryTick)
    (h1 : st.current_lap = some t.lap_count)
    (h2 : t.sector = none ∨ t.sector = some 0) :
    LapTracker.processTick st t = (st, []) := by
  have hs : sectorTruthy t.sector = false := by
    rcases h2 with h | h <;> simp [h, sectorTruthy]
  unfold LapTracker.processTick
  rw [h1]
  simp [hs]

/-- Tracker state used to instantiate `lapTracker_falsy_sector_no_event`. -/
def c10State : LapTrackerState :=
  { current_lap := some 2, current_sector := some 1,
    lap_start_session_time := some 5 }

/-- Sector-less tick used to instantiate `lapTracker_falsy_sector_no_event`. -/
def c10Tick : TelemetryTick :=
  { session_time_s := 6
    lap_count := 2
    lap_time_s := 1
    normalized_spline_pos := 1/2
    speed_kmh := 100
    throttle := 1
    brake := 0
    steer := 0
    sector := none }

/-- Witness for C10 at a concrete initialized state and sector-less tick. -/
theorem lapTracker_falsy_sector_no_event_witness :
    (c10State.current_lap = some c10Tick.lap_count ∧
      (c10Tick.sector = none ∨ c10Tick.sector = some 0)) ∧
    LapTracker.processTick c10State c10Tick = (c10State, []) :=
  ⟨⟨rfl, Or.inl rfl⟩,
   lapTracker_falsy_sector_no_event c10State c10Tick rfl (Or.inl rfl)⟩

/-! ## Theorems: Session Timing Analyzer -/

/-- Analyzer state after a first lap driven with sector times
30.0, 28.0, 31.0 (sectors 1 and 2 closed by `on_sector_changed`, sector 3
closed by `on_lap_finished`): the session's best-known sector times are
{1: 30.0, 2: 28.0, 3: 31.0}. -/
def c1AfterLap1 : SessionTimingAnalyzer :=
  ((((initSessionTimingAnalyzer.on_lap_started 1 0 1).on_sector_changed
        (some 1) (some 2) 30).on_sector_changed
      (some 2) (some 3) 58).on_lap_finished 1 89 89).1

/-- The later lap with sector times 29.5, 28.0, 31.5 (sectors 1 and 2
closed by `on_sector_changed`, sector 3 closed at `on_lap_finished`). -/
def c1LaterLap : SessionTimingAnalyzer × LapTimingData :=
  (((c1AfterLap1.on_lap_started 2 89 1).on_sector_changed
       (some 1) (some 2) (237/2)).on_sector_changed
     (some 2) (some 3) (293/2)).on_lap_finished 2 89 178

/-- C1 counterexample: with best-known sector times {30.0, 28.0, 31.0} and a
later lap whose sectors close at {29.5, 28.0, 31.5}, the returned
`LapTimingData` does NOT have theoretical_best_s = 89.0 together with a
sector-1 delta of -0.5: closing sector 1 via `on_sector_changed` already
lowered the best sector-1 time to 29.5 before the lap finished. -/
theorem sessionTiming_example_counterexample :
    c1AfterLap1.best_sector_times = [(1, 30), (2, 28), (3, 31)] ∧
    ¬(c1LaterLap.2.theoretical_best_s = some 89 ∧
      dictGet c1LaterLap.2.sector_deltas_to_best 1 = some (-(1/2))) := by
  norm_num [c1AfterLap1, c1LaterLap, initSessionTimingAnalyzer,
    SessionTimingAnalyzer.on_lap_started, SessionTimingAnalyzer.on_sector_changed,
    SessionTimingAnalyzer.on_lap_finished, updateBestSector, dictGet, dictSet,
    pyMax, List.filterMap_cons]

/-- C1 amended: in the scenario of the claim, the `LapTimingData` returned
by `on_lap_finished` has theoretical_best_s = 88.5 and
sector_deltas_to_best = {1: 0.0, 2: 0.0, 3: +0.5}, because each sector
close updates the best-known sector times before the lap-finish deltas are
computed (sector 1's best drops to 29.5 during the later lap). -/
theorem sessionTiming_example_amended :
    c1AfterLap1.best_sector_times = [(1, 30), (2, 28), (3, 31)] ∧
    c1LaterLap.2.theoretical_best_s = some (177/2) ∧
    c1LaterLap.2.sector_deltas_to_best = [(1, 0), (2, 0), (3, 1/2)] := by
  norm_num [c1AfterLap1, c1LaterLap, initSessionTimingAnalyzer,
    SessionTimingAnalyzer.on_lap_started, SessionTimingAnalyzer.on_sector_changed,
    SessionTimingAnalyzer.on_lap_finished, updateBestSector, dictGet, dictSet,
    pyMax, List.filterMap_cons]

/-- One `on_lap_finished` call replaces the best lap time with the minimum
of the previous best and the new lap time. -/
theorem on_lap_finished_best_lap (a : SessionTimingAnalyzer) (lap : ℕ)
    (t st : ℚ) :
    ((a.on_lap_finished lap t st).1).best_lap_time_s =
      some (match a.best_lap_time_s with
            | none => t
            | some b => min b t) := by
  unfold SessionTimingAnalyzer.on_lap_finished
  cases hb : a.best_lap_time_s with
  | none => simp [hb]
  | some b =>
      by_cases h : t < b
      · simp [hb, h, min_eq_right (le_of_lt h)]
      · simp [hb, h, min_eq_left (not_lt.1 h)]

/-- Folding `on_lap_finished` calls over a state whose best lap time is
already `some b` produces the running minimum seeded with `b`. -/
theorem runLapFinishes_best_some (calls : List (ℕ × ℚ × ℚ))
    (a : SessionTimingAnalyzer) (b : ℚ) (h : a.best_lap_time_s = some b) :
    (runLapFinishes a calls).best_lap_time_s =
      some ((calls.map (fun c => c.2.1)).foldl min b) := by
  induction calls generalizing a b with
  | nil => simpa [runLapFinishes] using h
  | cons c rest ih =>
      have step := on_lap_finished_best_lap a c.1 c.2.1 c.2.2
      rw [h] at step
      simpa [runLapFinishes, List.foldl_cons] using
        ih ((a.on_lap_finished c.1 c.2.1 c.2.2).1) (min b c.2.1) step

/-- C9: starting from a fresh `SessionTimingAnalyzer`, after any sequence
of `on_lap_finished` calls the best lap time is absent when no call has
been made and otherwise equals the minimum lap time passed so far (so it
never increases from one call to the next). -/
theorem best_lap_time_is_running_min (calls : List (ℕ × ℚ × ℚ)) :
    (runLapFinishes initSessionTimingAnalyzer calls).best_lap_time_s =
      match calls with
      | [] => none
      | c :: rest => some ((rest.map (fun x => x.2.1)).foldl min c.2.1) := by
  cases calls with
  | nil => rfl
  | cons c rest =>
      have step :=
        on_lap_finished_best_lap initSessionTimingAnalyzer c.1 c.2.1 c.2.2
      simp only [initSessionTimingAnalyzer] at step
      have := runLapFinishes_best_some rest
        ((initSessionTimingAnalyzer.on_lap_finished c.1 c.2.1 c.2.2).1)
        c.2.1 step
      simpa [runLapFinishes, List.foldl_cons] using this

/-! ## Corner Feature Extractor (features/extractor.py) -/

/-- Python `x or y` on floats: `0.0` is falsy, so the fallback `y` is used
exactly when `x` is `0.0`. -/
def pyOr (x y : ℚ) : ℚ := if x = 0 then y else x

/-- Python's built-in `abs` on floats, written to reduce on `ℚ`. -/
def pyAbs (x : ℚ) : ℚ := if x < 0 then -x else x

/-- `CornerFeature` (features/models.py lines 7-22). -/
structure CornerFeature where
  lap_number : ℕ
  corner_index : ℕ
  brake_start_point : ℚ
  turn_in_point : ℚ
  apex_point : ℚ
  brake_peak : ℚ
  brake_duration : ℚ
  min_speed : ℚ
  throttle_on_point : ℚ
  exit_stabilization_point : ℚ
  time_to_full_throttle : ℚ
  exit_speed : ℚ
  track_name : Option String := none
  track_length_m : Option ℚ := none
deriving DecidableEq

/-- `CornerCaptureState` (extractor.py lines 12-29). -/
structure CornerCaptureState where
  in_corner : Bool
  lap_number : ℕ
  corner_index : ℕ
  start_time_s : ℚ
  brake_start_point : ℚ
  turn_in_point : ℚ
  apex_point : ℚ
  brake_peak : ℚ
  min_speed : ℚ
  throttle_on_point : ℚ
  throttle_on_time_s : ℚ
  full_throttle_time_s : Option ℚ
  exit_stabilization_point : ℚ
  exit_speed : ℚ
  track_name : Option String
  track_length_m : Option ℚ
deriving DecidableEq

/-- The dataclass defaults of `CornerCaptureState` (a fresh, closed state). -/
def initCaptureState : CornerCaptureState :=
  { in_corner := false
    lap_number := 0
    corner_index := 0
    start_time_s := 0
    brake_start_point := 0
    turn_in_point := 0
    apex_point := 0
    brake_peak := 0
    min_speed := 999
    throttle_on_point := 0
    throttle_on_time_s := 0
    full_throttle_time_s := none
    exit_stabilization_point := 0
    exit_speed := 0
    track_name := none
    track_length_m := none }

/-- The five configurable thresholds of `FeatureExtractor.__init__`. -/
structure FeatureExtractorConfig where
  brake_threshold : ℚ
  throttle_threshold : ℚ
  full_throttle_threshold : ℚ
  turn_in_steer_threshold : ℚ
  stabilize_steer_threshold : ℚ
deriving DecidableEq

/-- The default thresholds (extractor.py lines 38-42). -/
def defaultExtractorConfig : FeatureExtractorConfig :=
  { brake_threshold := 15/100
    throttle_threshold := 20/100
    full_throttle_threshold := 95/100
    turn_in_steer_threshold := 12/100
    stabilize_steer_threshold := 10/100 }

/-- The mutable state of `FeatureExtractor`: the open-corner capture state
and the per-lap feature dictionary.  Since every access to `_lap_features`
is a lookup-with-`[]`-default or an append, the dict is modelled as a total
function defaulting to the empty list. -/
structure FeatureExtractorState where
  corner : CornerCaptureState
  lap_features : ℕ → List CornerFeature

/-- `FeatureExtractor.__init__`: no corner open, no features recorded. -/
def initExtractorState : FeatureExtractorState :=
  { corner := initCaptureState, lap_features := fun _ => [] }

/-- Events published by the extractor, with their payloads. -/
inductive FeatureEvent
  | corner_feature_completed (lap_number : ℕ) (feature : CornerFeature)
  | lap_features_ready (lap_number : ℕ) (features : List CornerFeature)
deriving DecidableEq

/-- `FeatureExtractor._start_corner` (extractor.py lines 131-146). -/
def startCorner (es : FeatureExtractorState) (t : TelemetryTick) :
    FeatureExtractorState :=
  { es with corner :=
    { in_corner := true
      lap_number := t.lap_count
      corner_index := (es.lap_features t.lap_count).length + 1
      start_time_s := t.session_time_s
      brake_start_point := t.normalized_spline_pos
      turn_in_point := t.normalized_spline_pos
      apex_point := t.normalized_spline_pos
      brake_peak := t.brake
      min_speed := t.speed_kmh
      throttle_on_point := 0
      throttle_on_time_s := 0
      full_throttle_time_s := none
      exit_stabilization_point := 0
      exit_speed := t.speed_kmh
      track_name := t.track_name
      track_length_m := t.track_length_m } }

/-- Line 64 of extractor.py: track peak brake. -/
def updBrakePeak (s : CornerCaptureState) (t : TelemetryTick) :
    CornerCaptureState :=
  { s with brake_peak := pyMax s.brake_peak t.brake }

/-- Lines 65-67: update `min_speed` and `apex_point` whenever the tick's
speed is at or below the current minimum. -/
def updMinSpeed (s : CornerCaptureState) (t : TelemetryTick) :
    CornerCaptureState :=
  if t.speed_kmh ≤ s.min_speed then
    { s with min_speed := t.speed_kmh
             apex_point := t.normalized_spline_pos }
  else s

/-- Line 68: remember the latest speed as exit speed. -/
def updExitSpeed (s : CornerCaptureState) (t : TelemetryTick) :
    CornerCaptureState :=
  { s with exit_speed := t.speed_kmh }

/-- Lines 70-71: the turn-in latch, guarded by `turn_in_point == 0.0`. -/
def updTurnIn (cfg : FeatureExtractorConfig) (s : CornerCaptureState)
    (t : TelemetryTick) : CornerCaptureState :=
  if s.turn_in_point = 0 ∧ cfg.turn_in_steer_threshold ≤ pyAbs t.steer then
    { s with turn_in_point := t.normalized_spline_pos }
  else s

/-- Lines 73-75: the throttle-on latch. -/
def updThrottleOn (cfg : FeatureExtractorConfig) (s : CornerCaptureState)
    (t : TelemetryTick) : CornerCaptureState :=
  if s.throttle_on_time_s = 0 ∧ cfg.throttle_threshold ≤ t.throttle then
    { s with throttle_on_time_s := t.session_time_s
             throttle_on_point := t.normalized_spline_pos }
  else s

/-- Lines 77-82: the full-throttle latch (only after throttle-on). -/
def updFullThrottle (cfg : FeatureExtractorConfig) (s : CornerCaptureState)
    (t : TelemetryTick) : CornerCaptureState :=
  if 0 < s.throttle_on_time_s ∧ s.full_throttle_time_s = none ∧
      cfg.full_throttle_threshold ≤ t.throttle then
    { s with full_throttle_time_s := some t.session_time_s }
  else s

/-- Lines 84-90: the exit-stabilization latch. -/
def updExitStab (cfg : FeatureExtractorConfig) (s : CornerCaptureState)
    (t : TelemetryTick) : CornerCaptureState :=
  if s.exit_stabilization_point = 0 ∧ 0 < s.throttle_on_time_s ∧
      t.brake ≤ 5/100 ∧ pyAbs t.steer ≤ cfg.stabilize_steer_threshold then
    { s with exit_stabilization_point := t.normalized_spline_pos }
  else s

/-- The in-corner per-tick updates of `FeatureExtractor.process_tick`
(extractor.py lines 64-90), applied in statement order.  Later statements
read the fields already updated by earlier statements of the same tick. -/
def captureUpdate (cfg : FeatureExtractorConfig) (s : CornerCaptureState)
    (t : TelemetryTick) : CornerCaptureState :=
  updExitStab cfg
    (updFullThrottle cfg
      (updThrottleOn cfg
        (updTurnIn cfg
          (updExitSpeed (updMinSpeed (updBrakePeak s t) t) t) t) t) t) t

/-- The finalized `CornerFeature` record built by
`FeatureExtractor._finalize_corner` (extractor.py lines 151-171) from the
capture state and the finalizing tick. -/
def finalizedFeature (s : CornerCaptureState) (t : TelemetryTick) :
    CornerFeature :=
  { lap_number := s.lap_number
    corner_index := s.corner_index
    brake_start_point := s.brake_start_point
    turn_in_point := pyOr s.turn_in_point s.brake_start_point
    apex_point := pyOr s.apex_point t.normalized_spline_pos
    brake_peak := s.brake_peak
    brake_duration := pyMax 0 (t.session_time_s - s.start_time_s)
    min_speed := s.min_speed
    throttle_on_point := pyOr s.throttle_on_point t.normalized_spline_pos
    exit_stabilization_point :=
      pyOr s.exit_stabilization_point t.normalized_spline_pos
    time_to_full_throttle :=
      pyMax 0
        ((match s.full_throttle_time_s with
          | none => t.session_time_s
          | some x => pyOr x t.session_time_s) -
         pyOr s.throttle_on_time_s t.session_time_s)
    exit_speed := s.exit_speed
    track_name := s.track_name
    track_length_m := s.track_length_m }

/-- `FeatureExtractor._finalize_corner` (extractor.py lines 148-181). -/
def finalizeCorner (es : FeatureExtractorState) (t : TelemetryTick) :
    FeatureExtractorState × List FeatureEvent :=
  if es.corner.in_corner = false then (es, [])
  else
    let feature := finalizedFeature es.corner t
    ({ corner := initCaptureState
       lap_features := fun L =>
         if L = feature.lap_number then es.lap_features L ++ [feature]
         else es.lap_features L },
     [FeatureEvent.corner_feature_completed feature.lap_number feature])

/-- `FeatureExtractor.process_tick` (extractor.py lines 53-99): start a
corner when idle and brake crosses the threshold; otherwise, while
capturing, apply the per-tick updates and finalize the corner when the
exit conditions hold on the updated state. -/
def FeatureExtractor.processTick (cfg : FeatureExtractorConfig)
    (es : FeatureExtractorState) (t : TelemetryTick) :
    FeatureExtractorState × List FeatureEvent :=
  if es.corner.in_corner = false ∧ cfg.brake_threshold ≤ t.brake then
    (startCorner es t, [])
  else if es.corner.in_corner = false then (es, [])
  else
    let s := captureUpdate cfg es.corner t
    let es2 := { es with corner := s }
    if 0 < s.throttle_on_time_s ∧ cfg.throttle_threshold ≤ t.throttle ∧
        t.brake ≤ 5/100 ∧ s.min_speed + 12 ≤ t.speed_kmh then
      finalizeCorner es2 t
    else (es2, [])

/-- The synthetic boundary sample built by `FeatureExtractor.finalize_lap`
(extractor.py lines 104-115). -/
def fakeLapEndTick (s : CornerCaptureState) (lap_number : ℕ) :
    TelemetryTick :=
  { session_time_s := s.start_time_s
    lap_count := lap_number
    lap_time_s := 0
    normalized_spline_pos := 1
    speed_kmh := s.exit_speed
    throttle := 0
    brake := 0
    steer := 0
    sector := none
    track_name := none
    track_length_m := none }

/-- `FeatureExtractor.finalize_lap` (extractor.py lines 101-126). -/
def FeatureExtractor.finalizeLap (es : FeatureExtractorState)
    (lap_number : ℕ) : FeatureExtractorState × List FeatureEvent :=
  let r :=
    if es.corner.in_corner = true ∧ es.corner.lap_number = lap_number then
      finalizeCorner es (fakeLapEndTick es.corner lap_number)
    else (es, [])
  (r.1,
   r.2 ++ [FeatureEvent.lap_features_ready lap_number
             (r.1.lap_features lap_number)])

/-- The extractor's external interface: ticks pushed by the pipeline and
`finalize_lap` calls issued by the session driver at lap boundaries. -/
inductive ExtractorOp
  | tick (t : TelemetryTick)
  | finalize_lap (lap_number : ℕ)

/-- One extractor API call. -/
def extractorStep (cfg : FeatureExtractorConfig)
    (es : FeatureExtractorState) (op : ExtractorOp) :
    FeatureExtractorState × List FeatureEvent :=
  match op with
  | ExtractorOp.tick t => FeatureExtractor.processTick cfg es t
  | ExtractorOp.finalize_lap n => FeatureExtractor.finalizeLap es n

/-- One extractor API call on a (state, accumulated events) pair. -/
def extractorPairStep (cfg : FeatureExtractorConfig)
    (p : FeatureExtractorState × List FeatureEvent) (op : ExtractorOp) :
    FeatureExtractorState × List FeatureEvent :=
  let r := extractorStep cfg p.1 op
  (r.1, p.2 ++ r.2)

/-- Run a sequence of extractor API calls from the freshly constructed
extractor, accumulating published events in order. -/
def runExtractor (cfg : FeatureExtractorConfig) (ops : List ExtractorOp) :
    FeatureExtractorState × List FeatureEvent :=
  ops.foldl (extractorPairStep cfg) (initExtractorState, [])

/-- The features emitted via `corner_feature_completed` for lap `L`, in
emission order. -/
def cornersForLap (L : ℕ) (evs : List FeatureEvent) : List CornerFeature :=
  evs.filterMap (fun e =>
    match e with
    | FeatureEvent.corner_feature_completed l f =>
        if l = L then some f else none
    | FeatureEvent.lap_features_ready _ _ => none)

/-! ## Theorems: Corner Feature Extractor, concrete runs -/

/-- Corner-entry tick for the turn-in latch run: brake crosses the entry
threshold at track position 0.5 with no steering input. -/
def c2Entry : TelemetryTick :=
  { session_time_s := 0
    lap_count := 1
    lap_time_s := 0
    normalized_spline_pos := 1/2
    speed_kmh := 100
    throttle := 0
    brake := 1/5
    steer := 0 }

/-- First capture tick whose steering magnitude (0.2) is at or above the
turn-in threshold (0.12), at track position 0.6. -/
def c2Steer : TelemetryTick :=
  { session_time_s := 1
    lap_count := 1
    lap_time_s := 1
    normalized_spline_pos := 3/5
    speed_kmh := 90
    throttle := 0
    brake := 1/2
    steer := 1/5 }

/-- Corner-exit tick: throttle reapplied, brake released, speed recovered
well past min_speed + 12. -/
def c2Exit : TelemetryTick :=
  { session_time_s := 2
    lap_count := 1
    lap_time_s := 2
    normalized_spline_pos := 7/10
    speed_kmh := 120
    throttle := 1/2
    brake := 0
    steer := 0 }

/-- C2, evaluation of the code at the failing input: the corner is entered
at position 0.5, the first (and only) capture tick whose steering
magnitude reaches the 0.12 threshold is at position 0.6, yet the finalized
feature's turn_in_point is 0.5, not 0.6.  `_start_corner` seeds
`turn_in_point` with the entry position, so the `turn_in_point == 0.0`
sentinel guard of the latch can never fire. -/
theorem turn_in_latch_dead_at_failing_input :
    defaultExtractorConfig.turn_in_steer_threshold ≤ pyAbs c2Steer.steer ∧
    (cornersForLap 1
        (runExtractor defaultExtractorConfig
          [ExtractorOp.tick c2Entry, ExtractorOp.tick c2Steer,
           ExtractorOp.tick c2Exit]).2).map
        (fun f => f.turn_in_point) = [1/2] ∧
    ((1 : ℚ)/2) ≠ 3/5 := by
  refine ⟨by norm_num [defaultExtractorConfig, c2Steer, pyAbs], ?_, by norm_num⟩
  norm_num [runExtractor, extractorPairStep, extractorStep,
    FeatureExtractor.processTick,
    startCorner, captureUpdate, updBrakePeak, updMinSpeed, updExitSpeed,
    updTurnIn, updThrottleOn, updFullThrottle, updExitStab, finalizeCorner,
    finalizedFeature, initExtractorState, initCaptureState,
    defaultExtractorConfig, pyMax, pyOr, pyAbs, cornersForLap,
    List.filterMap_cons, c2Entry, c2Steer, c2Exit]

/-- Corner-entry tick for the apex tie run: entry at position 0.5 with
speed 100. -/
def c3Entry : TelemetryTick :=
  { session_time_s := 0
    lap_count := 1
    lap_time_s := 0
    normalized_spline_pos := 1/2
    speed_kmh := 100
    throttle := 0
    brake := 1/5
    steer := 0 }

/-- Capture tick at position 0.6 whose speed ties the running minimum
(100 = 100) without strictly lowering it. -/
def c3Tie : TelemetryTick :=
  { session_time_s := 1
    lap_count := 1
    lap_time_s := 1
    normalized_spline_pos := 3/5
    speed_kmh := 100
    throttle := 0
    brake := 1/2
    steer := 0 }

/-- Corner-exit tick for the apex tie run. -/
def c3Exit : TelemetryTick :=
  { session_time_s := 2
    lap_count := 1
    lap_time_s := 2
    normalized_spline_pos := 7/10
    speed_kmh := 120
    throttle := 1/2
    brake := 0
    steer := 0 }

/-- C3 counterexample: in this capture no tick strictly lowers `min_speed`
(the only candidate ties it at 100), so the claim predicts an apex at the
corner-entry position 0.5; the code's `<=` comparison moves the apex to
the tying tick's position 0.6 instead. -/
theorem apex_point_tie_counterexample :
    c3Tie.speed_kmh = c3Entry.speed_kmh ∧
    c3Entry.normalized_spline_pos = 1/2 ∧
    (cornersForLap 1
        (runExtractor defaultExtractorConfig
          [ExtractorOp.tick c3Entry, ExtractorOp.tick c3Tie,
           ExtractorOp.tick c3Exit]).2).map
        (fun f => f.apex_point) = [3/5] ∧
    ((3 : ℚ)/5) ≠ 1/2 := by
  refine ⟨rfl, rfl, ?_, by norm_num⟩
  norm_num [runExtractor, extractorPairStep, extractorStep,
    FeatureExtractor.processTick,
    startCorner, captureUpdate, updBrakePeak, updMinSpeed, updExitSpeed,
    updTurnIn, updThrottleOn, updFullThrottle, updExitStab, finalizeCorner,
    finalizedFeature, initExtractorState, initCaptureState,
    defaultExtractorConfig, pyMax, pyOr, pyAbs, cornersForLap,
    List.filterMap_cons, c3Entry, c3Tie, c3Exit]

/-! ## Field-preservation lemmas for the capture update -/

@[simp] lemma updBrakePeak_in_corner (s : CornerCaptureState)
    (t : TelemetryTick) : (updBrakePeak s t).in_corner = s.in_corner := rfl

@[simp] lemma updBrakePeak_lap_number (s : CornerCaptureState)
    (t : TelemetryTick) : (updBrakePeak s t).lap_number = s.lap_number := rfl

@[simp] lemma updBrakePeak_corner_index (s : CornerCaptureState)
    (t : TelemetryTick) : (updBrakePeak s t).corner_index = s.corner_index :=
  rfl

@[simp] lemma updBrakePeak_min_speed (s : CornerCaptureState)
    (t : TelemetryTick) : (updBrakePeak s t).min_speed = s.min_speed := rfl

@[simp] lemma updBrakePeak_apex_point (s : CornerCaptureState)
    (t : TelemetryTick) : (updBrakePeak s t).apex_point = s.apex_point := rfl

@[simp] lemma updMinSpeed_in_corner (s : CornerCaptureState)
    (t : TelemetryTick) : (updMinSpeed s t).in_corner = s.in_corner := by
  simp only [updMinSpeed]
  split <;> rfl

@[simp] lemma updMinSpeed_lap_number (s : CornerCaptureState)
    (t : TelemetryTick) : (updMinSpeed s t).lap_number = s.lap_number := by
  simp only [updMinSpeed]
  split <;> rfl

@[simp] lemma updMinSpeed_corner_index (s : CornerCaptureState)
    (t : TelemetryTick) : (updMinSpeed s t).corner_index = s.corner_index := by
  simp only [updMinSpeed]
  split <;> rfl

lemma updMinSpeed_min_speed (s : CornerCaptureState) (t : TelemetryTick) :
    (updMinSpeed s t).min_speed =
      if t.speed_kmh ≤ s.min_speed then t.speed_kmh else s.min_speed := by
  simp only [updMinSpeed]
  split <;> rfl

lemma updMinSpeed_apex_point (s : CornerCaptureState) (t : TelemetryTick) :
    (updMinSpeed s t).apex_point =
      if t.speed_kmh ≤ s.min_speed then t.normalized_spline_pos
      else s.apex_point := by
  simp only [updMinSpeed]
  split <;> rfl

@[simp] lemma updExitSpeed_in_corner (s : CornerCaptureState)
    (t : TelemetryTick) : (updExitSpeed s t).in_corner = s.in_corner := rfl

@[simp] lemma updExitSpeed_lap_number (s : CornerCaptureState)
    (t : TelemetryTick) : (updExitSpeed s t).lap_number = s.lap_number := rfl

@[simp] lemma updExitSpeed_corner_index (s : CornerCaptureState)
    (t : TelemetryTick) : (updExitSpeed s t).corner_index = s.corner_index :=
  rfl

@[simp] lemma updExitSpeed_min_speed (s : CornerCaptureState)
    (t : TelemetryTick) : (updExitSpeed s t).min_speed = s.min_speed := rfl

@[simp] lemma updExitSpeed_apex_point (s : CornerCaptureState)
    (t : TelemetryTick) : (updExitSpeed s t).apex_point = s.apex_point := rfl

@[simp] lemma updTurnIn_in_corner (cfg : FeatureExtractorConfig)
    (s : CornerCaptureState) (t : TelemetryTick) :
    (updTurnIn cfg s t).in_corner = s.in_corner := by
  simp only [updTurnIn]
  split <;> rfl

@[simp] lemma updTurnIn_lap_number (cfg : FeatureExtractorConfig)
    (s : CornerCaptureState) (t : TelemetryTick) :
    (updTurnIn cfg s t).lap_number = s.lap_number := by
  simp only [updTurnIn]
  split <;> rfl

@[simp] lemma updTurnIn_corner_index (cfg : FeatureExtractorConfig)
    (s : CornerCaptureState) (t : TelemetryTick) :
    (updTurnIn cfg s t).corner_index = s.corner_index := by
  simp only [updTurnIn]
  split <;> rfl

@[simp] lemma updTurnIn_min_speed (cfg : FeatureExtractorConfig)
    (s : CornerCaptureState) (t : TelemetryTick) :
    (updTurnIn cfg s t).min_speed = s.min_speed := by
  simp only [updTurnIn]
  split <;> rfl

@[simp] lemma updTurnIn_apex_point (cfg : FeatureExtractorConfig)
    (s : CornerCaptureState) (t : TelemetryTick) :
    (updTurnIn cfg s t).apex_point = s.apex_point := by
  simp only [updTurnIn]
  split <;> rfl

@[simp] lemma updThrottleOn_in_corner (cfg : FeatureExtractorConfig)
    (s : CornerCaptureState) (t : TelemetryTick) :
    (updThrottleOn cfg s t).in_corner = s.in_corner := by
  simp only [updThrottleOn]
  split <;> rfl

@[simp] lemma updThrottleOn_lap_number (cfg : FeatureExtractorConfig)
    (s : CornerCaptureState) (t : TelemetryTick) :
    (updThrottleOn cfg s t).lap_number = s.lap_number := by
  simp only [updThrottleOn]
  split <;> rfl

@[simp] lemma updThrottleOn_corner_index (cfg : FeatureExtractorConfig)
    (s : CornerCaptureState) (t : TelemetryTick) :
    (updThrottleOn cfg s t).corner_index = s.corner_index := by
  simp only [updThrottleOn]
  split <;> rfl

@[simp] lemma updThrottleOn_min_speed (cfg : FeatureExtractorConfig)
    (s : CornerCaptureState) (t : TelemetryTick) :
    (updThrottleOn cfg s t).min_speed = s.min_speed := by
  simp only [updThrottleOn]
  split <;> rfl

@[simp] lemma updThrottleOn_apex_point (cfg : FeatureExtractorConfig)
    (s : CornerCaptureState) (t : TelemetryTick) :
    (updThrottleOn cfg s t).apex_point = s.apex_point := by
  simp only [updThrottleOn]
  split <;> rfl

@[simp] lemma updFullThrottle_in_corner (cfg : FeatureExtractorConfig)
    (s : CornerCaptureState) (t : TelemetryTick) :
    (updFullThrottle cfg s t).in_corner = s.in_corner := by
  simp only [updFullThrottle]
  split <;> rfl

@[simp] lemma updFullThrottle_lap_number (cfg : FeatureExtractorConfig)
    (s : CornerCaptureState) (t : TelemetryTick) :
    (updFullThrottle cfg s t).lap_number = s.lap_number := by
  simp only [updFullThrottle]
  split <;> rfl

@[simp] lemma updFullThrottle_corner_index (cfg : FeatureExtractorConfig)
    (s : CornerCaptureState) (t : TelemetryTick) :
    (updFullThrottle cfg s t).corner_index = s.corner_index := by
  simp only [updFullThrottle]
  split <;> rfl

@[simp] lemma updFullThrottle_min_speed (cfg : FeatureExtractorConfig)
    (s : CornerCaptureState) (t : TelemetryTick) :
    (updFullThrottle cfg s t).min_speed = s.min_speed := by
  simp only [updFullThrottle]
  split <;> rfl

@[simp] lemma updFullThrottle_apex_point (cfg : FeatureExtractorConfig)
    (s : CornerCaptureState) (t : TelemetryTick) :
    (updFullThrottle cfg s t).apex_point = s.apex_point := by
  simp only [updFullThrottle]
  split <;> rfl

@[simp] lemma updExitStab_in_corner (cfg : FeatureExtractorConfig)
    (s : CornerCaptureState) (t : TelemetryTick) :
    (updExitStab cfg s t).in_corner = s.in_corner := by
  simp only [updExitStab]
  split <;> rfl

@[simp] lemma updExitStab_lap_number (cfg : FeatureExtractorConfig)
    (s : CornerCaptureState) (t : TelemetryTick) :
    (updExitStab cfg s t).lap_number = s.lap_number := by
  simp only [updExitStab]
  split <;> rfl

@[simp] lemma updExitStab_corner_index (cfg : FeatureExtractorConfig)
    (s : CornerCaptureState) (t : TelemetryTick) :
    (updExitStab cfg s t).corner_index = s.corner_index := by
  simp only [updExitStab]
  split <;> rfl

@[simp] lemma updExitStab_min_speed (cfg : FeatureExtractorConfig)
    (s : CornerCaptureState) (t : TelemetryTick) :
    (updExitStab cfg s t).min_speed = s.min_speed := by
  simp only [updExitStab]
  split <;> rfl

@[simp] lemma updExitStab_apex_point (cfg : FeatureExtractorConfig)
    (s : CornerCaptureState) (t : TelemetryTick) :
    (updExitStab cfg s t).apex_point = s.apex_point := by
  simp only [updExitStab]
  split <;> rfl

lemma captureUpdate_in_corner (cfg : FeatureExtractorConfig)
    (s : CornerCaptureState) (t : TelemetryTick) :
    (captureUpdate cfg s t).in_corner = s.in_corner := by
  simp [captureUpdate]

lemma captureUpdate_lap_number (cfg : FeatureExtractorConfig)
    (s : CornerCaptureState) (t : TelemetryTick) :
    (captureUpdate cfg s t).lap_number = s.lap_number := by
  simp [captureUpdate]

lemma captureUpdate_corner_index (cfg : FeatureExtractorConfig)
    (s : CornerCaptureState) (t : TelemetryTick) :
    (captureUpdate cfg s t).corner_index = s.corner_index := by
  simp [captureUpdate]

lemma captureUpdate_min_speed (cfg : FeatureExtractorConfig)
    (s : CornerCaptureState) (t : TelemetryTick) :
    (captureUpdate cfg s t).min_speed =
      if t.speed_kmh ≤ s.min_speed then t.speed_kmh else s.min_speed := by
  simp [captureUpdate, updMinSpeed_min_speed]

lemma captureUpdate_apex_point (cfg : FeatureExtractorConfig)
    (s : CornerCaptureState) (t : TelemetryTick) :
    (captureUpdate cfg s t).apex_point =
      if t.speed_kmh ≤ s.min_speed then t.normalized_spline_pos
      else s.apex_point := by
  simp [captureUpdate, updMinSpeed_apex_point]

/-! ## The corner-index invariant (C4) -/

/-- `cornersForLap` distributes over event-list concatenation. -/
lemma cornersForLap_append (L : ℕ) (evs1 evs2 : List FeatureEvent) :
    cornersForLap L (evs1 ++ evs2) =
      cornersForLap L evs1 ++ cornersForLap L evs2 := by
  simp [cornersForLap]

/-- The extractor invariant: the per-lap emitted features coincide with the
recorded `_lap_features` lists, recorded corner indices form `1, 2, …`, an
open corner's index is one past its lap's recorded count, and every
published `lap_features_ready` payload has indices `1, 2, …`. -/
def extractorInv (es : FeatureExtractorState) (evs : List FeatureEvent) :
    Prop :=
  (∀ L, cornersForLap L evs = es.lap_features L) ∧
  (∀ L, (es.lap_features L).map (fun f => f.corner_index) =
      List.range' 1 (es.lap_features L).length) ∧
  (es.corner.in_corner = true →
      es.corner.corner_index =
        (es.lap_features es.corner.lap_number).length + 1) ∧
  (∀ L fs, FeatureEvent.lap_features_ready L fs ∈ evs →
      fs.map (fun f => f.corner_index) = List.range' 1 fs.length)

/-- The invariant holds for the fresh extractor with no events. -/
lemma extractorInv_init : extractorInv initExtractorState [] := by
  refine ⟨fun L => rfl, fun L => rfl, fun h => ?_, fun L fs h => ?_⟩
  · simp [initExtractorState, initCaptureState] at h
  · simp at h

/-- The features contributed by one `corner_feature_completed` event. -/
lemma cornersForLap_completed (L l : ℕ) (f : CornerFeature) :
    cornersForLap L [FeatureEvent.corner_feature_completed l f] =
      if l = L then [f] else [] := by
  by_cases h : l = L <;> simp [cornersForLap, h]

/-- Finalizing an open corner preserves the invariant: the appended feature
carries index `length + 1`. -/
lemma finalizeCorner_inv (es : FeatureExtractorState)
    (evs : List FeatureEvent) (t : TelemetryTick) (h : extractorInv es evs)
    (hin : es.corner.in_corner = true) :
    extractorInv (finalizeCorner es t).1
      (evs ++ (finalizeCorner es t).2) := by
  obtain ⟨h1, h2, h3, h4⟩ := h
  have hidx : es.corner.corner_index =
      (es.lap_features es.corner.lap_number).length + 1 := h3 hin
  have hfeat : (finalizedFeature es.corner t).lap_number =
      es.corner.lap_number := rfl
  have hfidx : (finalizedFeature es.corner t).corner_index =
      es.corner.corner_index := rfl
  simp only [finalizeCorner, hin, Bool.true_eq_false, if_neg,
    reduceCtorEq, ite_false]
  refine ⟨fun L => ?_, fun L => ?_, fun hc => ?_, fun L fs hm => ?_⟩
  · rw [cornersForLap_append, cornersForLap_completed, h1 L]
    by_cases hL : L = es.corner.lap_number
    · rw [hL]
      simp [hfeat]
    · simp [hfeat, hL, Ne.symm hL]
  · dsimp only
    by_cases hL : L = es.corner.lap_number
    · rw [hL]
      have hcond : es.corner.lap_number =
          (finalizedFeature es.corner t).lap_number := rfl
      rw [if_pos hcond, List.map_append, List.length_append,
        h2 es.corner.lap_number]
      have hlast : (finalizedFeature es.corner t).corner_index =
          (es.lap_features es.corner.lap_number).length + 1 := by
        rw [hfidx, hidx]
      simp only [hlast, List.map_cons, List.map_nil, List.length_cons,
        List.length_nil, Nat.add_comm 1 (es.lap_features es.corner.lap_number).length]
      rw [List.range'_1_concat, Nat.add_comm 1 (es.lap_features es.corner.lap_number).length]
    · rw [if_neg (fun hh => hL (hh.trans hfeat))]
      exact h2 L
  · simp [initCaptureState] at hc
  · rcases List.mem_append.mp hm with hold | hnew
    · exact h4 L fs hold
    · simp at hnew

/-- Processing one tick preserves the invariant. -/
lemma processTick_inv (cfg : FeatureExtractorConfig)
    (es : FeatureExtractorState) (evs : List FeatureEvent)
    (t : TelemetryTick) (h : extractorInv es evs) :
    extractorInv (FeatureExtractor.processTick cfg es t).1
      (evs ++ (FeatureExtractor.processTick cfg es t).2) := by
  obtain ⟨h1, h2, h3, h4⟩ := h
  by_cases hin : es.corner.in_corner = false
  · by_cases hbr : cfg.brake_threshold ≤ t.brake
    · simp only [FeatureExtractor.processTick, if_pos (And.intro hin hbr),
        List.append_nil]
      exact ⟨h1, h2, fun _ => rfl, h4⟩
    · have hne1 : ¬(es.corner.in_corner = false ∧
          cfg.brake_threshold ≤ t.brake) := fun hc => hbr hc.2
      simp only [FeatureExtractor.processTick, if_neg hne1, if_pos hin,
        List.append_nil]
      exact ⟨h1, h2, h3, h4⟩
  · have hin' : es.corner.in_corner = true := by
      revert hin
      cases es.corner.in_corner <;> simp
    have hne1 : ¬(es.corner.in_corner = false ∧
        cfg.brake_threshold ≤ t.brake) := fun hc => hin hc.1
    have hinv2 : extractorInv
        { es with corner := captureUpdate cfg es.corner t } evs := by
      refine ⟨h1, h2, fun _ => ?_, h4⟩
      show (captureUpdate cfg es.corner t).corner_index =
        (es.lap_features (captureUpdate cfg es.corner t).lap_number).length + 1
      rw [captureUpdate_corner_index, captureUpdate_lap_number]
      exact h3 hin'
    have hin2 : ({ es with corner := captureUpdate cfg es.corner t} :
        FeatureExtractorState).corner.in_corner = true := by
      show (captureUpdate cfg es.corner t).in_corner = true
      rw [captureUpdate_in_corner]
      exact hin'
    by_cases hfin : 0 < (captureUpdate cfg es.corner t).throttle_on_time_s ∧
        cfg.throttle_threshold ≤ t.throttle ∧ t.brake ≤ 5/100 ∧
        (captureUpdate cfg es.corner t).min_speed + 12 ≤ t.speed_kmh
    · simp only [FeatureExtractor.processTick, if_neg hne1, if_neg hin,
        if_pos hfin]
      exact finalizeCorner_inv _ evs t hinv2 hin2
    · simp only [FeatureExtractor.processTick, if_neg hne1, if_neg hin,
        if_neg hfin, List.append_nil]
      exact hinv2

/-- A `lap_features_ready` event contributes no corner features. -/
lemma cornersForLap_ready (L n : ℕ) (fs : List CornerFeature) :
    cornersForLap L [FeatureEvent.lap_features_ready n fs] = [] := by
  simp [cornersForLap]

/-- Publishing the recorded feature list of any lap preserves the
invariant. -/
lemma addReady_inv (es : FeatureExtractorState) (evs : List FeatureEvent)
    (n : ℕ) (h : extractorInv es evs) :
    extractorInv es
      (evs ++ [FeatureEvent.lap_features_ready n (es.lap_features n)]) := by
  obtain ⟨h1, h2, h3, h4⟩ := h
  refine ⟨fun L => ?_, h2, h3, fun L fs hm => ?_⟩
  · rw [cornersForLap_append, cornersForLap_ready, List.append_nil]
    exact h1 L
  · rcases List.mem_append.mp hm with hold | hnew
    · exact h4 L fs hold
    · simp only [List.mem_singleton, FeatureEvent.lap_features_ready.injEq]
        at hnew
      obtain ⟨hLn, hfs⟩ := hnew
      subst hfs
      exact h2 n

/-- `finalize_lap` preserves the invariant. -/
lemma finalizeLap_inv (es : FeatureExtractorState) (evs : List FeatureEvent)
    (n : ℕ) (h : extractorInv es evs) :
    extractorInv (FeatureExtractor.finalizeLap es n).1
      (evs ++ (FeatureExtractor.finalizeLap es n).2) := by
  by_cases hc : es.corner.in_corner = true ∧ es.corner.lap_number = n
  · have hfin := finalizeCorner_inv es evs (fakeLapEndTick es.corner n) h hc.1
    have hready := addReady_inv _ _ n hfin
    simp only [FeatureExtractor.finalizeLap, if_pos hc]
    simpa [List.append_assoc] using hready
  · have hready := addReady_inv es evs n h
    simp only [FeatureExtractor.finalizeLap, if_neg hc]
    simpa using hready

/-- The invariant is preserved along any run of the extractor loop. -/
lemma extractorLoop_inv (cfg : FeatureExtractorConfig)
    (ops : List ExtractorOp) (es : FeatureExtractorState)
    (evs : List FeatureEvent) (h : extractorInv es evs) :
    extractorInv (ops.foldl (extractorPairStep cfg) (es, evs)).1
      (ops.foldl (extractorPairStep cfg) (es, evs)).2 := by
  induction ops generalizing es evs with
  | nil => simpa using h
  | cons op rest ih =>
      simp only [List.foldl_cons]
      have hstep : extractorInv (extractorPairStep cfg (es, evs) op).1
          (extractorPairStep cfg (es, evs) op).2 := by
        cases op with
        | tick t =>
            simpa [extractorPairStep, extractorStep] using
              processTick_inv cfg es evs t h
        | finalize_lap n =>
            simpa [extractorPairStep, extractorStep] using
              finalizeLap_inv es evs n h
      have := ih (extractorPairStep cfg (es, evs) op).1
        (extractorPairStep cfg (es, evs) op).2 hstep
      simpa using this

/-- The invariant holds after any run from the fresh extractor. -/
lemma runExtractor_inv (cfg : FeatureExtractorConfig)
    (ops : List ExtractorOp) :
    extractorInv (runExtractor cfg ops).1 (runExtractor cfg ops).2 :=
  extractorLoop_inv cfg ops initExtractorState [] extractorInv_init

/-- C4: for every sequence of extractor API calls and every lap `L`, the
corner indices of the features emitted for `L` via
`corner_feature_completed` are exactly `1, 2, …` in emission order (so
they are strictly increasing starting at 1, restarting for each lap), and
every `lap_features_ready` payload published for `L` likewise carries
indices `1, 2, …`. -/
theorem extractor_corner_indices (cfg : FeatureExtractorConfig)
    (ops : List ExtractorOp) (L : ℕ) :
    (cornersForLap L (runExtractor cfg ops).2).map (fun f => f.corner_index) =
      List.range' 1 (cornersForLap L (runExtractor cfg ops).2).length ∧
    ∀ fs, FeatureEvent.lap_features_ready L fs ∈ (runExtractor cfg ops).2 →
      fs.map (fun f => f.corner_index) = List.range' 1 fs.length := by
  obtain ⟨h1, h2, h3, h4⟩ := runExtractor_inv cfg ops
  refine ⟨?_, fun fs hm => h4 L fs hm⟩
  rw [h1 L]
  exact h2 L

/-- Witness for C4 on a run containing a published `lap_features_ready`
event: the lap-1 payload of `finalize_lap 1` on the fresh extractor. -/
theorem extractor_corner_indices_witness :
    (FeatureEvent.lap_features_ready 1 [] ∈
      (runExtractor defaultExtractorConfig [ExtractorOp.finalize_lap 1]).2) ∧
    ([] : List CornerFeature).map (fun f => f.corner_index) =
      List.range' 1 ([] : List CornerFeature).length :=
  ⟨by simp [runExtractor, extractorPairStep, extractorStep,
      FeatureExtractor.finalizeLap, finalizeCorner, initExtractorState,
      initCaptureState],
   (extractor_corner_indices defaultExtractorConfig
      [ExtractorOp.finalize_lap 1] 1).2 []
     (by simp [runExtractor, extractorPairStep, extractorStep,
       FeatureExtractor.finalizeLap, finalizeCorner, initExtractorState,
       initCaptureState])⟩

/-! ## The apex characterization (C3) -/

/-- The states traversed while feeding a list of ticks, keeping only the
final extractor state. -/
def capturingRun (cfg : FeatureExtractorConfig) (es : FeatureExtractorState)
    (ts : List TelemetryTick) : FeatureExtractorState :=
  ts.foldl (fun e t => (FeatureExtractor.processTick cfg e t).1) es

/-- All intermediate states stay in a corner while feeding `ts`. -/
def stillCapturing (cfg : FeatureExtractorConfig)
    (es : FeatureExtractorState) : List TelemetryTick → Prop
  | [] => True
  | t :: rest =>
      (FeatureExtractor.processTick cfg es t).1.corner.in_corner = true ∧
      stillCapturing cfg (FeatureExtractor.processTick cfg es t).1 rest

/-- The running (min speed, apex position) pair over a list of capture
ticks: ticks whose speed is at or below the running minimum move both. -/
def apexFold (m a : ℚ) (ts : List TelemetryTick) : ℚ × ℚ :=
  ts.foldl
    (fun p t =>
      if t.speed_kmh ≤ p.1 then (t.speed_kmh, t.normalized_spline_pos)
      else p)
    (m, a)

/-- Unfolding one tick of `apexFold`. -/
lemma apexFold_cons (m a : ℚ) (t : TelemetryTick)
    (rest : List TelemetryTick) :
    apexFold m a (t :: rest) =
      apexFold (if t.speed_kmh ≤ m then t.speed_kmh else m)
        (if t.speed_kmh ≤ m then t.normalized_spline_pos else a) rest := by
  simp only [apexFold, List.foldl_cons]
  by_cases h : t.speed_kmh ≤ m <;> simp [h]

/-- `apexFold` over a run extended by one final tick. -/
lemma apexFold_concat (m a : ℚ) (ts : List TelemetryTick)
    (f : TelemetryTick) :
    apexFold m a (ts ++ [f]) =
      (if f.speed_kmh ≤ (apexFold m a ts).1 then
        (f.speed_kmh, f.normalized_spline_pos)
      else apexFold m a ts) := by
  simp [apexFold, List.foldl_append]

/-- Finalizing an open corner closes the capture state. -/
lemma finalizeCorner_corner (es : FeatureExtractorState) (t : TelemetryTick)
    (hin : es.corner.in_corner = true) :
    (finalizeCorner es t).1.corner = initCaptureState := by
  simp [finalizeCorner, hin]

/-- A tick that leaves the extractor in a corner is exactly the per-tick
capture update: the finalize branch would have closed the corner. -/
lemma processTick_capturing (cfg : FeatureExtractorConfig)
    (es : FeatureExtractorState) (t : TelemetryTick)
    (hin : es.corner.in_corner = true)
    (hstay : (FeatureExtractor.processTick cfg es t).1.corner.in_corner =
      true) :
    (FeatureExtractor.processTick cfg es t).1 =
      { es with corner := captureUpdate cfg es.corner t } := by
  have hne0 : ¬es.corner.in_corner = false := by simp [hin]
  have hne1 : ¬(es.corner.in_corner = false ∧
      cfg.brake_threshold ≤ t.brake) := fun hc => hne0 hc.1
  by_cases hfin : 0 < (captureUpdate cfg es.corner t).throttle_on_time_s ∧
      cfg.throttle_threshold ≤ t.throttle ∧ t.brake ≤ 5/100 ∧
      (captureUpdate cfg es.corner t).min_speed + 12 ≤ t.speed_kmh
  · exfalso
    have hin2 : ({ es with corner := captureUpdate cfg es.corner t } :
        FeatureExtractorState).corner.in_corner = true := by
      show (captureUpdate cfg es.corner t).in_corner = true
      rw [captureUpdate_in_corner]
      exact hin
    have hclosed := finalizeCorner_corner
      { es with corner := captureUpdate cfg es.corner t } t hin2
    rw [FeatureExtractor.processTick] at hstay
    rw [if_neg hne1, if_neg hne0, if_pos hfin] at hstay
    rw [hclosed] at hstay
    simp [initCaptureState] at hstay
  · rw [FeatureExtractor.processTick]
    rw [if_neg hne1, if_neg hne0, if_neg hfin]

/-- Along a capture run the `(min_speed, apex_point)` pair is exactly
`apexFold` of the ticks fed so far, and the corner stays open. -/
lemma capturingRun_minApex (cfg : FeatureExtractorConfig)
    (ts : List TelemetryTick) (es : FeatureExtractorState)
    (hin : es.corner.in_corner = true) (hcap : stillCapturing cfg es ts) :
    ((capturingRun cfg es ts).corner.min_speed,
      (capturingRun cfg es ts).corner.apex_point) =
      apexFold es.corner.min_speed es.corner.apex_point ts ∧
    (capturingRun cfg es ts).corner.in_corner = true := by
  induction ts generalizing es with
  | nil => exact ⟨rfl, hin⟩
  | cons t rest ih =>
      obtain ⟨hstay, hrest⟩ := hcap
      have hstep := processTick_capturing cfg es t hin hstay
      have hin' : ({ es with corner := captureUpdate cfg es.corner t } :
          FeatureExtractorState).corner.in_corner = true := by
        show (captureUpdate cfg es.corner t).in_corner = true
        rw [captureUpdate_in_corner]
        exact hin
      rw [hstep] at hrest
      have hrec := ih { es with corner := captureUpdate cfg es.corner t }
        hin' hrest
      have hrun : capturingRun cfg es (t :: rest) =
          capturingRun cfg
            { es with corner := captureUpdate cfg es.corner t } rest := by
        simp only [capturingRun, List.foldl_cons, hstep]
      rw [hrun, apexFold_cons]
      refine ⟨?_, hrec.2⟩
      rw [hrec.1]
      show apexFold (captureUpdate cfg es.corner t).min_speed
          (captureUpdate cfg es.corner t).apex_point rest = _
      rw [captureUpdate_min_speed, captureUpdate_apex_point]

/-- C3 amended: for a corner opened by an entry tick `e` and kept open
through the capture ticks `ts`, the emitted feature's `apex_point` is the
track position recorded at the last capture-updated tick whose speed was
at or below the running minimum (ties included), seeded with the entry
tick's speed and position, with a recorded position of exactly 0.0
replaced by the finalizing sample's position.  The capture-updated ticks
include the closing tick `f` when the corner is closed by the exit
conditions of `process_tick`; when the corner is instead force-finalized
by `finalize_lap`, the synthetic boundary sample (position 1.0) does not
pass through the capture updates, so the fold stops at `ts`. -/
theorem apex_point_amended (cfg : FeatureExtractorConfig)
    (es0 : FeatureExtractorState) (e : TelemetryTick)
    (ts : List TelemetryTick)
    (h0 : es0.corner.in_corner = false)
    (h1 : cfg.brake_threshold ≤ e.brake)
    (h2 : stillCapturing cfg (FeatureExtractor.processTick cfg es0 e).1 ts) :
    (∀ (f : TelemetryTick) (l : ℕ) (feat : CornerFeature),
      (FeatureExtractor.processTick cfg
          (capturingRun cfg (FeatureExtractor.processTick cfg es0 e).1 ts)
          f).2 = [FeatureEvent.corner_feature_completed l feat] →
      feat.apex_point =
        pyOr (apexFold e.speed_kmh e.normalized_spline_pos (ts ++ [f])).2
          f.normalized_spline_pos) ∧
    (∀ (n l : ℕ) (feat : CornerFeature) (fs : List CornerFeature),
      (FeatureExtractor.finalizeLap
          (capturingRun cfg (FeatureExtractor.processTick cfg es0 e).1 ts)
          n).2 =
        [FeatureEvent.corner_feature_completed l feat,
         FeatureEvent.lap_features_ready n fs] →
      feat.apex_point =
        pyOr (apexFold e.speed_kmh e.normalized_spline_pos ts).2 1) := by
  have hs1 : (FeatureExtractor.processTick cfg es0 e).1 = startCorner es0 e := by
    simp only [FeatureExtractor.processTick, if_pos (And.intro h0 h1)]
  have hin1 : (FeatureExtractor.processTick cfg es0 e).1.corner.in_corner =
      true := by
    rw [hs1]
    rfl
  obtain ⟨hpair, hin2⟩ :=
    capturingRun_minApex cfg ts (FeatureExtractor.processTick cfg es0 e).1
      hin1 h2
  have hstart_min : (FeatureExtractor.processTick cfg es0
      e).1.corner.min_speed = e.speed_kmh := by
    rw [hs1]
    rfl
  have hstart_apex : (FeatureExtractor.processTick cfg es0
      e).1.corner.apex_point = e.normalized_spline_pos := by
    rw [hs1]
    rfl
  rw [hstart_min, hstart_apex] at hpair
  have hpair' := hpair
  have hne0 : ¬(capturingRun cfg (FeatureExtractor.processTick cfg es0 e).1
      ts).corner.in_corner = false := by simp [hin2]
  set s2 := capturingRun cfg (FeatureExtractor.processTick cfg es0 e).1 ts
    with hs2
  have hapex2 : s2.corner.apex_point =
      (apexFold e.speed_kmh e.normalized_spline_pos ts).2 :=
    congrArg Prod.snd hpair'
  refine ⟨?_, ?_⟩
  · intro f l feat h3
    have hne1 : ¬(s2.corner.in_corner = false ∧
        cfg.brake_threshold ≤ f.brake) := fun hc => hne0 hc.1
    by_cases hfin : 0 < (captureUpdate cfg s2.corner f).throttle_on_time_s ∧
        cfg.throttle_threshold ≤ f.throttle ∧ f.brake ≤ 5/100 ∧
        (captureUpdate cfg s2.corner f).min_speed + 12 ≤ f.speed_kmh
    · rw [FeatureExtractor.processTick] at h3
      rw [if_neg hne1, if_neg hne0, if_pos hfin] at h3
      have hin3 : ({ s2 with corner := captureUpdate cfg s2.corner f } :
          FeatureExtractorState).corner.in_corner = true := by
        show (captureUpdate cfg s2.corner f).in_corner = true
        rw [captureUpdate_in_corner]
        exact hin2
      rw [finalizeCorner] at h3
      rw [if_neg (by simpa using hin3)] at h3
      simp only [List.cons.injEq, FeatureEvent.corner_feature_completed.injEq]
        at h3
      have hfeat : feat =
          finalizedFeature (captureUpdate cfg s2.corner f) f := h3.1.2.symm
      rw [hfeat]
      show pyOr (captureUpdate cfg s2.corner f).apex_point
          f.normalized_spline_pos = _
      rw [captureUpdate_apex_point, apexFold_concat, ← hpair']
      by_cases hsp : f.speed_kmh ≤ s2.corner.min_speed
      · rw [if_pos hsp, if_pos hsp]
      · rw [if_neg hsp, if_neg hsp]
    · exfalso
      rw [FeatureExtractor.processTick] at h3
      rw [if_neg hne1, if_neg hne0, if_neg hfin] at h3
      simp at h3
  · intro n l feat fs hev
    by_cases hc : s2.corner.in_corner = true ∧ s2.corner.lap_number = n
    · simp only [FeatureExtractor.finalizeLap] at hev
      rw [if_pos hc] at hev
      have hne : ¬s2.corner.in_corner = false := by simp [hc.1]
      rw [finalizeCorner] at hev
      rw [if_neg hne] at hev
      simp only [List.cons_append, List.nil_append, List.cons.injEq,
        FeatureEvent.corner_feature_completed.injEq] at hev
      have hfeat : feat =
          finalizedFeature s2.corner (fakeLapEndTick s2.corner n) :=
        hev.1.2.symm
      rw [hfeat]
      show pyOr s2.corner.apex_point
          (fakeLapEndTick s2.corner n).normalized_spline_pos = _
      rw [hapex2]
      rfl
    · exfalso
      simp only [FeatureExtractor.finalizeLap] at hev
      rw [if_neg hc] at hev
      simp at hev

/-- The feature produced by the concrete apex-tie run when the corner is
closed by the exit conditions, used to instantiate `apex_point_amended`. -/
def c3Feature : CornerFeature :=
  { lap_number := 1
    corner_index := 1
    brake_start_point := 1/2
    turn_in_point := 1/2
    apex_point := 3/5
    brake_peak := 1/2
    brake_duration := 2
    min_speed := 100
    throttle_on_point := 7/10
    exit_stabilization_point := 7/10
    time_to_full_throttle := 0
    exit_speed := 120
    track_name := none
    track_length_m := none }

/-- The feature produced by the concrete apex-tie run when the corner is
instead force-finalized by `finalize_lap` after the tie tick: the
synthetic boundary sample contributes the 1.0 fallback positions but does
not move the apex. -/
def c3FeatureForced : CornerFeature :=
  { lap_number := 1
    corner_index := 1
    brake_start_point := 1/2
    turn_in_point := 1/2
    apex_point := 3/5
    brake_peak := 1/2
    brake_duration := 0
    min_speed := 100
    throttle_on_point := 1
    exit_stabilization_point := 1
    time_to_full_throttle := 0
    exit_speed := 100
    track_name := none
    track_length_m := none }

/-- Witness for C3 amended at the concrete apex-tie run, exercising both
closing paths: the exit-condition close on `c3Exit` and the forced close
by `finalize_lap`. -/
theorem apex_point_amended_witness :
    initExtractorState.corner.in_corner = false ∧
    defaultExtractorConfig.brake_threshold ≤ c3Entry.brake ∧
    stillCapturing defaultExtractorConfig
      (FeatureExtractor.processTick defaultExtractorConfig
        initExtractorState c3Entry).1 [c3Tie] ∧
    (FeatureExtractor.processTick defaultExtractorConfig
        (capturingRun defaultExtractorConfig
          (FeatureExtractor.processTick defaultExtractorConfig
            initExtractorState c3Entry).1 [c3Tie]) c3Exit).2 =
      [FeatureEvent.corner_feature_completed 1 c3Feature] ∧
    c3Feature.apex_point =
      pyOr (apexFold c3Entry.speed_kmh c3Entry.normalized_spline_pos
          ([c3Tie] ++ [c3Exit])).2 c3Exit.normalized_spline_pos ∧
    (FeatureExtractor.finalizeLap
        (capturingRun defaultExtractorConfig
          (FeatureExtractor.processTick defaultExtractorConfig
            initExtractorState c3Entry).1 [c3Tie]) 1).2 =
      [FeatureEvent.corner_feature_completed 1 c3FeatureForced,
       FeatureEvent.lap_features_ready 1 [c3FeatureForced]] ∧
    c3FeatureForced.apex_point =
      pyOr (apexFold c3Entry.speed_kmh c3Entry.normalized_spline_pos
          [c3Tie]).2 1 := by
  have hbr : defaultExtractorConfig.brake_threshold ≤ c3Entry.brake := by
    norm_num [defaultExtractorConfig, c3Entry]
  have hcap : stillCapturing defaultExtractorConfig
      (FeatureExtractor.processTick defaultExtractorConfig
        initExtractorState c3Entry).1 [c3Tie] := by
    refine ⟨?_, trivial⟩
    norm_num [FeatureExtractor.processTick, startCorner, captureUpdate,
      updBrakePeak, updMinSpeed, updExitSpeed, updTurnIn, updThrottleOn,
      updFullThrottle, updExitStab, finalizeCorner, finalizedFeature,
      initExtractorState, initCaptureState, defaultExtractorConfig, pyMax,
      pyOr, pyAbs, c3Entry, c3Tie]
  have hevs : (FeatureExtractor.processTick defaultExtractorConfig
      (capturingRun defaultExtractorConfig
        (FeatureExtractor.processTick defaultExtractorConfig
          initExtractorState c3Entry).1 [c3Tie]) c3Exit).2 =
      [FeatureEvent.corner_feature_completed 1 c3Feature] := by
    norm_num [capturingRun, FeatureExtractor.processTick, startCorner,
      captureUpdate, updBrakePeak, updMinSpeed, updExitSpeed, updTurnIn,
      updThrottleOn, updFullThrottle, updExitStab, finalizeCorner,
      finalizedFeature, initExtractorState, initCaptureState,
      defaultExtractorConfig, pyMax, pyOr, pyAbs, c3Entry, c3Tie, c3Exit,
      c3Feature]
  have hevs2 : (FeatureExtractor.finalizeLap
      (capturingRun defaultExtractorConfig
        (FeatureExtractor.processTick defaultExtractorConfig
          initExtractorState c3Entry).1 [c3Tie]) 1).2 =
      [FeatureEvent.corner_feature_completed 1 c3FeatureForced,
       FeatureEvent.lap_features_ready 1 [c3FeatureForced]] := by
    norm_num [capturingRun, FeatureExtractor.processTick,
      FeatureExtractor.finalizeLap, fakeLapEndTick, startCorner,
      captureUpdate, updBrakePeak, updMinSpeed, updExitSpeed, updTurnIn,
      updThrottleOn, updFullThrottle, updExitStab, finalizeCorner,
      finalizedFeature, initExtractorState, initCaptureState,
      defaultExtractorConfig, pyMax, pyOr, pyAbs, c3Entry, c3Tie,
      c3FeatureForced]
  exact ⟨rfl, hbr, hcap, hevs,
    (apex_point_amended defaultExtractorConfig initExtractorState c3Entry
      [c3Tie] rfl hbr hcap).1 c3Exit 1 c3Feature hevs, hevs2,
    (apex_point_amended defaultExtractorConfig initExtractorState c3Entry
      [c3Tie] rfl hbr hcap).2 1 1 c3FeatureForced [c3FeatureForced] hevs2⟩

/-! ## Realtime Coach (coaching/realtime_coach.py) -/

/-- `CoachMessage` (realtime_coach.py lines 9-15). -/
structure CoachMessage where
  lap_number : ℕ
  corner_index : ℕ
  text : String
  severity : String
  category : String
deriving DecidableEq

/-- The state of `RealtimeCoach` (lines 21-25): the baseline mapping from
corner index to reference feature, the accumulated messages, the baseline
label and the session-wide fallback track length. -/
structure RealtimeCoach where
  best_lap_features : ℕ → Option CornerFeature
  current_messages : List CoachMessage
  baseline_label : String
  track_length_m : ℚ

/-- `RealtimeCoach._resolve_track_length` (lines 83-88): prefer a truthy
positive track length from the feature, then from the baseline, then the
session-wide fallback. -/
def RealtimeCoach.resolveTrackLength (c : RealtimeCoach)
    (f b : CornerFeature) : ℚ :=
  match f.track_length_m with
  | some x =>
      if x ≠ 0 ∧ 0 < x then x
      else
        match b.track_length_m with
        | some y => if y ≠ 0 ∧ 0 < y then y else c.track_length_m
        | none => c.track_length_m
  | none =>
      match b.track_length_m with
      | some y => if y ≠ 0 ∧ 0 < y then y else c.track_length_m
      | none => c.track_length_m

/-- `RealtimeCoach._delta_m` (lines 90-93): convert a spline-position delta
to meters, at scale ×100 when no positive track length is known. -/
def deltaM (delta_spline track_length_m : ℚ) : ℚ :=
  if track_length_m ≤ 0 then delta_spline * 100
  else delta_spline * track_length_m

/-- `RealtimeCoach._push` (lines 72-81): build the message and append it to
`current_messages`. -/
def RealtimeCoach.push (c : RealtimeCoach) (f : CornerFeature)
    (text severity category : String) : Option CoachMessage × RealtimeCoach :=
  let message : CoachMessage :=
    { lap_number := f.lap_number
      corner_index := f.corner_index
      text := text
      severity := severity
      category := category }
  (some message, { c with current_messages := c.current_messages ++ [message] })

/-- `RealtimeCoach.evaluate_corner` (lines 35-70): the fixed, ordered rule
cascade; the first matching rule's message is returned. -/
def RealtimeCoach.evaluateCorner (c : RealtimeCoach) (f : CornerFeature) :
    Option CoachMessage × RealtimeCoach :=
  match c.best_lap_features f.corner_index with
  | none => (none, c)
  | some baseline =>
      let track_length_m := c.resolveTrackLength f baseline
      let brake_delta_m :=
        deltaM (f.brake_start_point - baseline.brake_start_point)
          track_length_m
      let turn_in_delta_m :=
        deltaM (f.turn_in_point - baseline.turn_in_point) track_length_m
      let apex_delta_m :=
        deltaM (f.apex_point - baseline.apex_point) track_length_m
      let throttle_delta_m :=
        deltaM (f.throttle_on_point - baseline.throttle_on_point)
          track_length_m
      if brake_delta_m ≤ -6 then c.push f "Freou cedo." "warn" "brake"
      else if 6 ≤ brake_delta_m then c.push f "Freou tarde." "critical" "brake"
      else if f.min_speed < baseline.min_speed - 3 then
        c.push f "Entrada de curva lenta." "warn" "entry"
      else if turn_in_delta_m ≤ -4 then
        c.push f "Entrada antecipada." "warn" "turn_in"
      else if 4 ≤ turn_in_delta_m then
        c.push f "Entrada tardia." "warn" "turn_in"
      else if apex_delta_m ≤ -3 then
        c.push f "Apex antecipado." "warn" "apex"
      else if 3 ≤ apex_delta_m then
        c.push f "Apex atrasado." "warn" "apex"
      else if 5 ≤ throttle_delta_m then
        c.push f "Acelerou tarde." "warn" "throttle"
      else if baseline.time_to_full_throttle + 1/4 <
          f.time_to_full_throttle then
        c.push f "Aceleracao lenta na saida." "warn" "throttle"
      else if f.exit_speed < baseline.exit_speed - 7/2 then
        c.push f "Saida de curva lenta." "warn" "exit"
      else (none, c)

/-- C6: with a baseline present for the corner's index, a brake-start delta
of -8 m (braked 8 m early) and an apex delta of -5 m (apex 5 m early),
`evaluate_corner` returns exactly the "braked early" message with severity
`warn` and category `brake` — rule 1 wins, no apex message is produced. -/
theorem evaluateCorner_brake_early_wins (c : RealtimeCoach)
    (f b : CornerFeature)
    (hb : c.best_lap_features f.corner_index = some b)
    (hbrake : deltaM (f.brake_start_point - b.brake_start_point)
        (c.resolveTrackLength f b) = -8)
    (hapex : deltaM (f.apex_point - b.apex_point)
        (c.resolveTrackLength f b) = -5) :
    (c.evaluateCorner f).1 =
      some { lap_number := f.lap_number
             corner_index := f.corner_index
             text := "Freou cedo."
             severity := "warn"
             category := "brake" } := by
  rw [RealtimeCoach.evaluateCorner, hb]
  simp only [hbrake, hapex]
  rw [if_pos (by norm_num)]
  rfl

/-- Baseline feature used to instantiate `evaluateCorner_brake_early_wins`:
brake start at 0.50, apex at 0.50, on a 100 m track. -/
def c6Baseline : CornerFeature :=
  { lap_number := 1
    corner_index := 1
    brake_start_point := 1/2
    turn_in_point := 1/2
    apex_point := 1/2
    brake_peak := 1
    brake_duration := 1
    min_speed := 100
    throttle_on_point := 3/5
    exit_stabilization_point := 7/10
    time_to_full_throttle := 1
    exit_speed := 150
    track_name := none
    track_length_m := some 100 }

/-- Evaluated feature: brake start 8 m early (0.42 on a 100 m track) and
apex 5 m early (0.45). -/
def c6Feature : CornerFeature :=
  { lap_number := 2
    corner_index := 1
    brake_start_point := 42/100
    turn_in_point := 1/2
    apex_point := 45/100
    brake_peak := 1
    brake_duration := 1
    min_speed := 100
    throttle_on_point := 3/5
    exit_stabilization_point := 7/10
    time_to_full_throttle := 1
    exit_speed := 150
    track_name := none
    track_length_m := some 100 }

/-- Coach holding `c6Baseline` for corner index 1. -/
def c6Coach : RealtimeCoach :=
  { best_lap_features := fun i => if i = 1 then some c6Baseline else none
    current_messages := []
    baseline_label := "session_best"
    track_length_m := 0 }

/-- Witness for C6 at a concrete coach, baseline and feature. -/
theorem evaluateCorner_brake_early_wins_witness :
    c6Coach.best_lap_features c6Feature.corner_index = some c6Baseline ∧
    deltaM (c6Feature.brake_start_point - c6Baseline.brake_start_point)
        (c6Coach.resolveTrackLength c6Feature c6Baseline) = -8 ∧
    deltaM (c6Feature.apex_point - c6Baseline.apex_point)
        (c6Coach.resolveTrackLength c6Feature c6Baseline) = -5 ∧
    (c6Coach.evaluateCorner c6Feature).1 =
      some { lap_number := c6Feature.lap_number
             corner_index := c6Feature.corner_index
             text := "Freou cedo."
             severity := "warn"
             category := "brake" } := by
  have hb : c6Coach.best_lap_features c6Feature.corner_index =
      some c6Baseline := rfl
  have hbrake : deltaM (c6Feature.brake_start_point -
      c6Baseline.brake_start_point)
      (c6Coach.resolveTrackLength c6Feature c6Baseline) = -8 := by
    norm_num [deltaM, RealtimeCoach.resolveTrackLength, c6Coach, c6Feature,
      c6Baseline]
  have hapex : deltaM (c6Feature.apex_point - c6Baseline.apex_point)
      (c6Coach.resolveTrackLength c6Feature c6Baseline) = -5 := by
    norm_num [deltaM, RealtimeCoach.resolveTrackLength, c6Coach, c6Feature,
      c6Baseline]
  exact ⟨hb, hbrake, hapex,
    evaluateCorner_brake_early_wins c6Coach c6Feature c6Baseline hb hbrake
      hapex⟩

/-! ## Benchmark Repository upsert (benchmarks/repository.py lines 99-132)

The SQL `INSERT … ON CONFLICT(track_slug, car_slug, condition) DO UPDATE`
statement of `upsert_entries` is embedded as a merge on a store keyed by
`(track_slug, car_slug, condition)`: descriptive columns are overwritten
unconditionally, `lap_time_s`/`lap_time_text` only when the new lap time
is strictly lower.  The `updated_at_utc` wall-clock column is not
modelled. -/

/-- `BenchmarkEntry` (benchmarks/models.py lines 7-18). -/
structure BenchmarkEntry where
  track_slug : String
  track_name : String
  car_slug : String
  car_name : String
  car_class : String
  condition : String
  lap_time_s : ℚ
  lap_time_text : String
  source_url : String
  source_setup_id : Option String := none
deriving DecidableEq

/-- One stored row of the `benchmark_entries` table, without its key
columns. -/
structure StoredBenchmarkRow where
  track_name : String
  car_name : String
  car_class : String
  lap_time_s : ℚ
  lap_time_text : String
  source_url : String
  source_setup_id : Option String
deriving DecidableEq

/-- The table's primary key for an entry. -/
def entryKey (e : BenchmarkEntry) : String × String × String :=
  (e.track_slug, e.car_slug, e.condition)

/-- One `INSERT … ON CONFLICT DO UPDATE` execution. -/
def upsertEntry
    (db : String × String × String → Option StoredBenchmarkRow)
    (e : BenchmarkEntry) :
    String × String × String → Option StoredBenchmarkRow :=
  let newRow : StoredBenchmarkRow :=
    match db (entryKey e) with
    | none =>
        { track_name := e.track_name
          car_name := e.car_name
          car_class := e.car_class
          lap_time_s := e.lap_time_s
          lap_time_text := e.lap_time_text
          source_url := e.source_url
          source_setup_id := e.source_setup_id }
    | some old =>
        { track_name := e.track_name
          car_name := e.car_name
          car_class := e.car_class
          lap_time_s :=
            if e.lap_time_s < old.lap_time_s then e.lap_time_s
            else old.lap_time_s
          lap_time_text :=
            if e.lap_time_s < old.lap_time_s then e.lap_time_text
            else old.lap_time_text
          source_url := e.source_url
          source_setup_id := e.source_setup_id }
  fun k => if k = entryKey e then some newRow else db k

/-- `BenchmarkRepository.upsert_entries`: execute the statement for each
entry in order. -/
def upsertEntries
    (db : String × String × String → Option StoredBenchmarkRow)
    (es : List BenchmarkEntry) :
    String × String × String → Option StoredBenchmarkRow :=
  es.foldl upsertEntry db

/-- The empty `benchmark_entries` table. -/
def emptyBenchmarkDb : String × String × String → Option StoredBenchmarkRow :=
  fun _ => none

/-- First insert for the upsert example: lap time 100.0. -/
def c8Entry1 : BenchmarkEntry :=
  { track_slug := "monza"
    track_name := "Monza v1"
    car_slug := "bmw-m4-gt3-1"
    car_name := "BMW M4 GT3 v1"
    car_class := "GT3"
    condition := "dry"
    lap_time_s := 100
    lap_time_text := "1:40.000"
    source_url := "u1"
    source_setup_id := some "s1" }

/-- Second insert, same key, lap time 99.5 and new descriptive fields. -/
def c8Entry2 : BenchmarkEntry :=
  { track_slug := "monza"
    track_name := "Monza v2"
    car_slug := "bmw-m4-gt3-1"
    car_name := "BMW M4 GT3 v2"
    car_class := "GT3 v2"
    condition := "dry"
    lap_time_s := 199/2
    lap_time_text := "1:39.500"
    source_url := "u2"
    source_setup_id := some "s2" }

/-- Third insert, same key, slower lap time 101.0 and new descriptive
fields. -/
def c8Entry3 : BenchmarkEntry :=
  { track_slug := "monza"
    track_name := "Monza v3"
    car_slug := "bmw-m4-gt3-1"
    car_name := "BMW M4 GT3 v3"
    car_class := "GT3 v3"
    condition := "dry"
    lap_time_s := 101
    lap_time_text := "1:41.000"
    source_url := "u3"
    source_setup_id := none }

/-- C8: inserting lap times 100.0 then 99.5 for the same key stores 99.5; a
further insert with 101.0 leaves the stored lap time (and its text) at
99.5 while every descriptive field takes the newest insert's value; and in
general a re-insert always overwrites the descriptive fields with the new
entry's values and stores the minimum of the old and new lap times. -/
theorem upsert_keeps_lower_lap_time :
    upsertEntries emptyBenchmarkDb [c8Entry1, c8Entry2]
        ("monza", "bmw-m4-gt3-1", "dry") =
      some { track_name := "Monza v2"
             car_name := "BMW M4 GT3 v2"
             car_class := "GT3 v2"
             lap_time_s := 199/2
             lap_time_text := "1:39.500"
             source_url := "u2"
             source_setup_id := some "s2" } ∧
    upsertEntries emptyBenchmarkDb [c8Entry1, c8Entry2, c8Entry3]
        ("monza", "bmw-m4-gt3-1", "dry") =
      some { track_name := "Monza v3"
             car_name := "BMW M4 GT3 v3"
             car_class := "GT3 v3"
             lap_time_s := 199/2
             lap_time_text := "1:39.500"
             source_url := "u3"
             source_setup_id := none } ∧
    ∀ (db : String × String × String → Option StoredBenchmarkRow)
      (e : BenchmarkEntry), ∃ r : StoredBenchmarkRow,
        upsertEntry db e (entryKey e) = some r ∧
        r.track_name = e.track_name ∧
        r.car_name = e.car_name ∧
        r.car_class = e.car_class ∧
        r.source_url = e.source_url ∧
        r.source_setup_id = e.source_setup_id ∧
        r.lap_time_s =
          (match db (entryKey e) with
           | none => e.lap_time_s
           | some old => min old.lap_time_s e.lap_time_s) := by
  refine ⟨?_, ?_, ?_⟩
  · norm_num [upsertEntries, upsertEntry, entryKey, emptyBenchmarkDb,
      c8Entry1, c8Entry2]
  · norm_num [upsertEntries, upsertEntry, entryKey, emptyBenchmarkDb,
      c8Entry1, c8Entry2, c8Entry3]
  · intro db e
    cases h : db (entryKey e) with
    | none =>
        refine ⟨{ track_name := e.track_name
                  car_name := e.car_name
                  car_class := e.car_class
                  lap_time_s := e.lap_time_s
                  lap_time_text := e.lap_time_text
                  source_url := e.source_url
                  source_setup_id := e.source_setup_id },
          ?_, rfl, rfl, rfl, rfl, rfl, ?_⟩
        · simp [upsertEntry, h]
        · simp [h]
    | some old =>
        by_cases hlt : e.lap_time_s < old.lap_time_s
        · refine ⟨{ track_name := e.track_name
                    car_name := e.car_name
                    car_class := e.car_class
                    lap_time_s := e.lap_time_s
                    lap_time_text := e.lap_time_text
                    source_url := e.source_url
                    source_setup_id := e.source_setup_id },
            ?_, rfl, rfl, rfl, rfl, rfl, ?_⟩
          · simp [upsertEntry, h, hlt]
          · simp only [h]
            exact (min_eq_right (le_of_lt hlt)).symm
        · refine ⟨{ track_name := e.track_name
                    car_name := e.car_name
                    car_class := e.car_class
                    lap_time_s := old.lap_time_s
                    lap_time_text := old.lap_time_text
                    source_url := e.source_url
                    source_setup_id := e.source_setup_id },
            ?_, rfl, rfl, rfl, rfl, rfl, ?_⟩
          · simp [upsertEntry, h, hlt]
          · simp only [h]
            exact (min_eq_left (not_lt.mp hlt)).symm

/-! ## Benchmark fuzzy slug matching (benchmarks/repository.py 264-308) -/

/-- The accumulator loop of `_split_tokens` (repository.py lines 270-282):
walk the lowered characters, grouping alphanumeric runs into tokens. -/
def splitTokensGo : List Char → List Char → List String
  | [], token =>
      if token = [] then [] else [String.mk token.reverse]
  | c :: rest, token =>
      let lc := c.toLower
      if lc.isAlphanum then splitTokensGo rest (lc :: token)
      else if token = [] then splitTokensGo rest []
      else String.mk token.reverse :: splitTokensGo rest []

/-- `_split_tokens`: lower-case and split into alphanumeric tokens. -/
def splitTokens (s : String) : List String := splitTokensGo s.data []

/-- A Python `set` of tokens, as a duplicate-free list in first-occurrence
order. -/
def tokenSet (s : String) : List String := (splitTokens s).dedup

/-- `len(query_tokens & candidate_tokens)`: the size of the token-set
intersection. -/
def overlapCount (q c : List String) : ℕ :=
  (q.filter (fun t => c.contains t)).length

/-- The score `_best_slug_match` computes for one candidate, with score 0
for the candidates the loop skips (empty token set or empty overlap). -/
def slugScore (qtoks : List String) (slug : String) : ℚ :=
  if tokenSet slug = [] then 0
  else if overlapCount qtoks (tokenSet slug) = 0 then 0
  else (overlapCount qtoks (tokenSet slug) : ℚ) /
    ((max qtoks.length (tokenSet slug).length : ℕ) : ℚ)

/-- The candidate loop of `_best_slug_match` (repository.py lines 292-304),
threading `best_slug` and `best_score`. -/
def bestLoop (qtoks : List String) :
    List String → Option String → ℚ → Option String × ℚ
  | [], best, best_score => (best, best_score)
  | slug :: rest, best, best_score =>
      if tokenSet slug = [] then bestLoop qtoks rest best best_score
      else if overlapCount qtoks (tokenSet slug) = 0 then
        bestLoop qtoks rest best best_score
      else
        let score := (overlapCount qtoks (tokenSet slug) : ℚ) /
          ((max qtoks.length (tokenSet slug).length : ℕ) : ℚ)
        if best_score < score then bestLoop qtoks rest (some slug) score
        else bestLoop qtoks rest best best_score

/-- `_best_slug_match` (repository.py lines 285-308): empty queries match
nothing, otherwise run the loop and reject a best score below 0.35. -/
def bestSlugMatch (query : String) (candidates : List String) :
    Option String :=
  if query = "" then none
  else if (splitTokens query).dedup = [] then none
  else if (bestLoop ((splitTokens query).dedup) candidates none 0).2 <
      35/100 then none
  else (bestLoop ((splitTokens query).dedup) candidates none 0).1

/-- The highest score over a candidate list (0 when empty). -/
def maxScore (qtoks : List String) (cands : List String) : ℚ :=
  (cands.map (slugScore qtoks)).foldl max 0

/-- Scores are never negative. -/
lemma slugScore_nonneg (qtoks : List String) (c : String) :
    0 ≤ slugScore qtoks c := by
  by_cases h1 : tokenSet c = []
  · simp [slugScore, h1]
  · by_cases h2 : overlapCount qtoks (tokenSet c) = 0
    · simp [slugScore, h1, h2]
    · simp only [slugScore, if_neg h1, if_neg h2]
      positivity

/-- On a non-skipped candidate the score is the loop's raw ratio. -/
lemma slugScore_of_valid (qtoks : List String) (c : String)
    (h1 : ¬tokenSet c = []) (h2 : ¬overlapCount qtoks (tokenSet c) = 0) :
    slugScore qtoks c = (overlapCount qtoks (tokenSet c) : ℚ) /
      ((max qtoks.length (tokenSet c).length : ℕ) : ℚ) := by
  simp [slugScore, h1, h2]

/-- A non-skipped candidate scores strictly positively. -/
lemma slugScore_pos_of_valid (qtoks : List String) (c : String)
    (h1 : ¬tokenSet c = []) (h2 : ¬overlapCount qtoks (tokenSet c) = 0) :
    0 < slugScore qtoks c := by
  rw [slugScore_of_valid qtoks c h1 h2]
  apply div_pos
  · exact_mod_cast Nat.pos_of_ne_zero h2
  · have hl : 0 < (tokenSet c).length := List.length_pos.mpr h1
    have : 0 < max qtoks.length (tokenSet c).length :=
      lt_of_lt_of_le hl (le_max_right _ _)
    exact_mod_cast this

/-- A left fold by `max` never drops below its seed. -/
lemma le_foldl_max (l : List ℚ) (s : ℚ) : s ≤ l.foldl max s := by
  induction l generalizing s with
  | nil => exact le_rfl
  | cons x xs ih => exact le_trans (le_max_left s x) (ih (max s x))

/-- `find?` over the score predicate keeps a head that attains `M`. -/
lemma find?_score_cons_eq (qtoks : List String) (c : String)
    (rest : List String) (M : ℚ) (h : slugScore qtoks c = M) :
    (c :: rest).find? (fun x => slugScore qtoks x == M) = some c := by
  have hb : (slugScore qtoks c == M) = true := beq_iff_eq.mpr h
  simp [List.find?_cons, hb]

/-- `find?` over the score predicate skips a head that misses `M`. -/
lemma find?_score_cons_ne (qtoks : List String) (c : String)
    (rest : List String) (M : ℚ) (h : ¬slugScore qtoks c = M) :
    (c :: rest).find? (fun x => slugScore qtoks x == M) =
      rest.find? (fun x => slugScore qtoks x == M) := by
  have hb : (slugScore qtoks c == M) = false := beq_eq_false_iff_ne.mpr h
  simp [List.find?_cons, hb]

/-- Characterization of the candidate loop: the final score is the fold of
`max` over all candidate scores, and the returned slug is the seed when no
candidate strictly beat it, otherwise the first candidate attaining the
final score. -/
lemma bestLoop_spec (qtoks : List String) (cands : List String)
    (b0 : Option String) (s0 : ℚ) (h0 : 0 ≤ s0) :
    bestLoop qtoks cands b0 s0 =
      ((if (cands.map (slugScore qtoks)).foldl max s0 = s0 then b0
        else cands.find? (fun c => slugScore qtoks c ==
          (cands.map (slugScore qtoks)).foldl max s0)),
       (cands.map (slugScore qtoks)).foldl max s0) := by
  induction cands generalizing b0 s0 with
  | nil => simp [bestLoop]
  | cons c rest ih =>
      by_cases h1 : tokenSet c = []
      · have hsc : slugScore qtoks c = 0 := by simp [slugScore, h1]
        have hstep : bestLoop qtoks (c :: rest) b0 s0 =
            bestLoop qtoks rest b0 s0 := by
          simp [bestLoop, h1]
        rw [hstep, ih b0 s0 h0, List.map_cons, List.foldl_cons, hsc,
          max_eq_left h0]
        have hMge : s0 ≤ (rest.map (slugScore qtoks)).foldl max s0 :=
          le_foldl_max _ _
        by_cases hMs : (rest.map (slugScore qtoks)).foldl max s0 = s0
        · rw [if_pos hMs, if_pos hMs]
        · rw [if_neg hMs, if_neg hMs,
            find?_score_cons_ne qtoks c rest _ (by
              rw [hsc]
              exact ne_of_lt (lt_of_le_of_lt h0
                (lt_of_le_of_ne hMge (fun hh => hMs hh.symm))))]
      · by_cases h2 : overlapCount qtoks (tokenSet c) = 0
        · have hsc : slugScore qtoks c = 0 := by simp [slugScore, h1, h2]
          have hstep : bestLoop qtoks (c :: rest) b0 s0 =
              bestLoop qtoks rest b0 s0 := by
            simp [bestLoop, h1, h2]
          rw [hstep, ih b0 s0 h0, List.map_cons, List.foldl_cons, hsc,
            max_eq_left h0]
          have hMge : s0 ≤ (rest.map (slugScore qtoks)).foldl max s0 :=
            le_foldl_max _ _
          by_cases hMs : (rest.map (slugScore qtoks)).foldl max s0 = s0
          · rw [if_pos hMs, if_pos hMs]
          · rw [if_neg hMs, if_neg hMs,
              find?_score_cons_ne qtoks c rest _ (by
                rw [hsc]
                exact ne_of_lt (lt_of_le_of_lt h0
                  (lt_of_le_of_ne hMge (fun hh => hMs hh.symm))))]
        · have hsc : slugScore qtoks c =
              (overlapCount qtoks (tokenSet c) : ℚ) /
                ((max qtoks.length (tokenSet c).length : ℕ) : ℚ) :=
            slugScore_of_valid qtoks c h1 h2
          have hpos : 0 < slugScore qtoks c :=
            slugScore_pos_of_valid qtoks c h1 h2
          by_cases hup : s0 < (overlapCount qtoks (tokenSet c) : ℚ) /
              ((max qtoks.length (tokenSet c).length : ℕ) : ℚ)
          · have hup' : s0 < slugScore qtoks c := by rw [hsc]; exact hup
            have hstep : bestLoop qtoks (c :: rest) b0 s0 =
                bestLoop qtoks rest (some c) (slugScore qtoks c) := by
              rw [hsc]
              simp only [bestLoop, if_neg h1, if_neg h2, if_pos hup]
            rw [hstep, ih (some c) (slugScore qtoks c) (le_of_lt hpos),
              List.map_cons, List.foldl_cons, max_eq_right (le_of_lt hup')]
            have hMge : slugScore qtoks c ≤
                (rest.map (slugScore qtoks)).foldl max (slugScore qtoks c) :=
              le_foldl_max _ _
            have hMs0 : ¬(rest.map (slugScore qtoks)).foldl max
                (slugScore qtoks c) = s0 :=
              fun hh => absurd (hh ▸ hMge) (not_le.mpr hup')
            rw [if_neg hMs0]
            by_cases hMc : slugScore qtoks c =
                (rest.map (slugScore qtoks)).foldl max (slugScore qtoks c)
            · rw [if_pos hMc.symm, find?_score_cons_eq qtoks c rest _ hMc]
            · rw [if_neg (fun hh => hMc hh.symm),
                find?_score_cons_ne qtoks c rest _ hMc]
          · have hle : slugScore qtoks c ≤ s0 := by
              rw [hsc]
              exact not_lt.mp hup
            have hstep : bestLoop qtoks (c :: rest) b0 s0 =
                bestLoop qtoks rest b0 s0 := by
              simp only [bestLoop, if_neg h1, if_neg h2, if_neg hup]
            rw [hstep, ih b0 s0 h0, List.map_cons, List.foldl_cons,
              max_eq_left hle]
            have hMge : s0 ≤ (rest.map (slugScore qtoks)).foldl max s0 :=
              le_foldl_max _ _
            by_cases hMs : (rest.map (slugScore qtoks)).foldl max s0 = s0
            · rw [if_pos hMs, if_pos hMs]
            · rw [if_neg hMs, if_neg hMs,
                find?_score_cons_ne qtoks c rest _ (by
                  exact ne_of_lt (lt_of_le_of_lt hle
                    (lt_of_le_of_ne hMge (fun hh => hMs hh.symm))))]

/-- With an empty query token set every candidate scores 0. -/
lemma maxScore_nil_query (cands : List String) : maxScore [] cands = 0 := by
  induction cands with
  | nil => rfl
  | cons c rest ih =>
      have hc : slugScore [] c = 0 := by
        by_cases h1 : tokenSet c = []
        · simp [slugScore, h1]
        · simp [slugScore, h1, overlapCount]
      simp only [maxScore, List.map_cons, List.foldl_cons] at *
      rw [hc, max_eq_left le_rfl]
      exact ih

/-- C7: fuzzy slug matching scores each candidate as the token-set
intersection size divided by the larger token-set size, rejects a best
score below 0.35 as no match, and otherwise returns the first candidate in
enumeration order attaining the maximal score — so on ties the
first-encountered candidate wins, and with candidates enumerated in
slug-sorted order (as `list_tracks`/`list_cars` produce them via
`ORDER BY`) that is the slug-sorted first. -/
theorem bestSlugMatch_spec (query : String) (cands : List String) :
    bestSlugMatch query cands =
      (if maxScore ((splitTokens query).dedup) cands < 35/100 then none
       else cands.find? (fun c =>
         slugScore ((splitTokens query).dedup) c ==
           maxScore ((splitTokens query).dedup) cands)) := by
  by_cases hq : query = ""
  · rw [bestSlugMatch, if_pos hq]
    have hqt : (splitTokens query).dedup = [] := by rw [hq]; rfl
    rw [hqt, maxScore_nil_query]
    norm_num
  · rw [bestSlugMatch, if_neg hq]
    by_cases hqt : (splitTokens query).dedup = []
    · rw [if_pos hqt, hqt, maxScore_nil_query]
      norm_num
    · rw [if_neg hqt]
      have hloop := bestLoop_spec ((splitTokens query).dedup) cands none 0
        le_rfl
      have h2 : (bestLoop ((splitTokens query).dedup) cands none 0).2 =
          maxScore ((splitTokens query).dedup) cands := by
        rw [hloop]
        rfl
      rw [h2]
      by_cases hM : maxScore ((splitTokens query).dedup) cands < 35/100
      · rw [if_pos hM, if_pos hM]
      · rw [if_neg hM, if_neg hM]
        have h1b : (bestLoop ((splitTokens query).dedup) cands none 0).1 =
            if maxScore ((splitTokens query).dedup) cands = 0 then none
            else cands.find? (fun c =>
              slugScore ((splitTokens query).dedup) c ==
                maxScore ((splitTokens query).dedup) cands) := by
          rw [hloop]
          rfl
        rw [h1b, if_neg (fun hz => hM (by rw [hz]; norm_num))]

end DrivingCoach
